import Mathlib

/-!
A verification development for the C backend of the puffs transpiler
(`puffs-gen-c`).  The Go source is shallowly embedded: each emission
function of the backend becomes a Lean function producing the emitted C
text (as a `String`), with fallible paths returning `Except Err`, and the
per-function scratch state (`tempW`, `tempR`, jump targets, …) passed
explicitly.  AST node types (which live in the external `lang/ast` and
`lang/token` packages) are modelled as Lean inductives exposing exactly
the accessors the backend reads.
-/

namespace PuffsC

/-! ## String-infix machinery (for "the output contains …" statements) -/

/-- `StrIn pat s` : the string `pat` occurs as a contiguous substring of `s`. -/
def StrIn (pat s : String) : Prop := pat.data <:+: s.data

instance (pat s : String) : Decidable (StrIn pat s) :=
  inferInstanceAs (Decidable (pat.data <:+: s.data))

theorem strIn_refl (s : String) : StrIn s s := List.infix_rfl

theorem strIn_append_left (pat a b : String) (h : StrIn pat a) : StrIn pat (a ++ b) := by
  unfold StrIn at *
  rw [String.data_append]
  exact h.trans (by simpa using List.infix_append ([] : List Char) a.data b.data)

theorem strIn_append_right (pat a b : String) (h : StrIn pat b) : StrIn pat (a ++ b) := by
  unfold StrIn at *
  rw [String.data_append]
  exact h.trans (by simpa using List.infix_append a.data b.data ([] : List Char))

theorem strIn_trans (p q s : String) (h1 : StrIn p q) (h2 : StrIn q s) : StrIn p s :=
  List.IsInfix.trans h1 h2

/-- Concatenation of a list of strings (`strConcat`, in a shape that
recursion lemmas handle directly). -/
def strConcat : List String → String
  | [] => ""
  | s :: rest => s ++ strConcat rest

theorem strIn_strConcat_of_mem (x : String) :
    ∀ (l : List String), x ∈ l → StrIn x (strConcat l)
  | a :: t, h => by
    rcases List.mem_cons.mp h with h1 | h2
    · subst h1; exact strIn_append_left x x (strConcat t) (strIn_refl x)
    · exact strIn_append_right x a (strConcat t) (strIn_strConcat_of_mem x t h2)

/-! ## Errors

The backend's error taxonomy.  Each constructor corresponds to a
`fmt.Errorf` site in the Go source. -/

inductive Err where
  | badStatusMessage (msg : String)
  | cyclicStructs
  | unsupported (what : String)
  | bodyTooDeep
  | exprTooDeep
  | tooManyNestedIfs
  | tooManyJumpTargets
  | tooManyTemporaries
  | cannotConvertType (what : String)
  | tempOutOfSync
  | boolConstNot01 (what : String)
  | unrecognizedKind (what : String)
  deriving DecidableEq, Repr

/-- `mapM` over `Except`, in a directly recursive shape. -/
def exMapM {a b : Type} (f : a → Except Err b) : List a → Except Err (List b)
  | [] => Except.ok []
  | x :: t => do
    let y ← f x
    let r ← exMapM f t
    Except.ok (y :: r)

/-! ## Name mangling (`cName`) -/

/-- One character step of the Go `cName` loop: ASCII uppercase is
lowercased, ASCII lowercase / digits / underscore are kept, a space
becomes an underscore, everything else is dropped. -/
def cNameChar (c : Char) : Option Char :=
  if 'A' ≤ c ∧ c ≤ 'Z' then some (Char.ofNat (c.toNat + 32))
  else if ('a' ≤ c ∧ c ≤ 'z') ∨ ('0' ≤ c ∧ c ≤ '9') ∨ c = '_' then some c
  else if c = ' ' then some '_'
  else none

/-- `strings.HasPrefix`, on the character level (kernel-reducible). -/
def hasPfx (pfx s : String) : Bool := pfx.data.isPrefixOf s.data

/-- The Name Mangler: `func (g *gen) cName(name string) string`. -/
def cName (pkg name : String) : String :=
  "puffs_" ++ pkg ++ "_" ++ String.mk (name.data.filterMap cNameChar)

/-! ## Statuses -/

def userDefinedStatusBase : Nat := 128

/-- `var builtInStatuses = [...]string{...}` from the source, in order. -/
def builtInStatuses : List String :=
  [ "status ok",
    "error bad version",
    "error bad receiver",
    "error bad argument",
    "error constructor not called",
    "error unexpected EOF",
    "status short read",
    "status short write",
    "error closed for writes" ]

structure Status where
  name : String
  msg : String
  isError : Bool
  deriving DecidableEq, Repr

/-- Whether built-in status at index `i` is an error
(`strings.HasPrefix(s, "error ")`). -/
def builtInIsError (i : Nat) : Bool :=
  hasPfx "error " (builtInStatuses.getD i "")

/-- The C integer value denoted by an emitted enum entry `%d%s`:
the base number, plus the literal `+1` nudge when present. -/
def enumEntryValue (base : Int) (nudged : Bool) : Int :=
  base + (if nudged then 1 else 0)

/-- Value assigned to built-in status at index `i`. -/
def builtInStatusValue (i : Nat) : Int :=
  enumEntryValue (-2 * i) (builtInIsError i)

/-- Value assigned to user-defined status at index `i`. -/
def userStatusValue (isError : Bool) (i : Nat) : Int :=
  enumEntryValue (-2 * ((userDefinedStatusBase : Int) + i)) isError

/-- The emitted C predicate `puffs_PKG_status_is_error(s) { return s & 1; }`,
read at the value level: the low bit of the two's-complement status,
i.e. `s % 2` (nonnegative remainder). -/
def statusIsErrorC (s : Int) : Bool := s % 2 == 1

/-! ## The Collector: `gatherStatuses` -/

inductive Keyword where
  | status
  | error
  deriving DecidableEq, Repr

/-- A status declaration as the AST exposes it: the `status`/`error`
keyword and the raw message token text (`n.Message().String(g.tm)`,
quotes included when well-formed). -/
structure StatusDecl where
  keyword : Keyword
  message : String
  public : Bool
  deriving DecidableEq, Repr

/-- The quoted-literal check
`len(msg) < 2 || msg[0] != '"' || msg[len(msg)-1] != '"'` (negated). -/
def quotedOk (msg : String) : Bool :=
  decide (2 ≤ msg.data.length) && (msg.data.head? == some '"')
    && (msg.data.getLast? == some '"')

/-- `msg = msg[1 : len(msg)-1]` — strip the surrounding quotes. -/
def unquote (msg : String) : String :=
  String.mk ((msg.data.drop 1).dropLast)

/-- Build the `status` record for one declaration, as `gatherStatuses`
does after the quoting check. -/
def mkStatus (pkg : String) (d : StatusDecl) : Status :=
  let msg := unquote d.message
  let isErr := d.keyword == Keyword.error
  let pfx := if isErr then "error " else "status "
  { name := cName pkg (pfx ++ msg), msg := msg, isError := isErr }

/-- `gatherStatuses` folded over the status declarations in source order
(the Go version is invoked per declaration by `forEachStatus` and
appends to `g.statusList`; the first malformed message aborts). -/
def gatherStatuses (pkg : String) : List StatusDecl → Except Err (List Status)
  | [] => Except.ok []
  | d :: ds =>
    if quotedOk d.message then
      (gatherStatuses pkg ds).map (fun l => mkStatus pkg d :: l)
    else
      Except.error (Err.badStatusMessage d.message)

/-! ## Namespacing prefixes -/

def aPfx : String := "a_"
def fPfx : String := "f_"
def tPfx : String := "t_"
def vPfx : String := "v_"

/-! ## Type lowering (`writeCTypeName`) -/

/-- The name keys a `TypeExpr` can carry (`t.KeyI8` … plus interned
identifiers for package-level named types). -/
inductive TKey where
  | i8 | i16 | i32 | i64 | u8 | u16 | u32 | u64 | usize | boolK | buf1 | buf2
  | ident (s : String)
  deriving DecidableEq, Repr

/-- Source-level spelling, used in fallback type names. -/
def TKey.str : TKey → String
  | .i8 => "i8" | .i16 => "i16" | .i32 => "i32" | .i64 => "i64"
  | .u8 => "u8" | .u16 => "u16" | .u32 => "u32" | .u64 => "u64"
  | .usize => "usize" | .boolK => "bool" | .buf1 => "buf1" | .buf2 => "buf2"
  | .ident s => s

/-- `var cTypeNames = [...]string{...}`: C names for the numeric keys;
`none` for keys outside the table (the fallback prints
`puffs_PKG_NAME`). -/
def cTypeNames : TKey → Option String
  | .i8 => some "int8_t" | .i16 => some "int16_t"
  | .i32 => some "int32_t" | .i64 => some "int64_t"
  | .u8 => some "uint8_t" | .u16 => some "uint16_t"
  | .u32 => some "uint32_t" | .u64 => some "uint64_t"
  | .usize => some "size_t" | .boolK => some "bool"
  | .buf1 => some "puffs_base_buf1" | .buf2 => some "puffs_base_buf2"
  | .ident _ => none

/-- `var numTypeBounds = [256][2]*big.Int{...}`: the natural bounds of
each numeric key; `none` entries are the `nil` pointers of the Go
array. -/
def numTypeBounds : TKey → Option Int × Option Int
  | .i8 => (some (-(2 ^ 7)), some (2 ^ 7 - 1))
  | .i16 => (some (-(2 ^ 15)), some (2 ^ 15 - 1))
  | .i32 => (some (-(2 ^ 31)), some (2 ^ 31 - 1))
  | .i64 => (some (-(2 ^ 63)), some (2 ^ 63 - 1))
  | .u8 => (some 0, some (2 ^ 8 - 1))
  | .u16 => (some 0, some (2 ^ 16 - 1))
  | .u32 => (some 0, some (2 ^ 32 - 1))
  | .u64 => (some 0, some (2 ^ 64 - 1))
  | .usize => (some 0, some 0)
  | .boolK => (some 0, some 1)
  | _ => (none, none)

/-- A type expression as the backend reads it: a (possibly refined) base
name, a pointer decoration, or an array decoration.  The refinement
carries the per-side constant values (`Bounds()[i].ConstValue()`); a
missing bound expression and a non-constant bound expression both
appear as `none`, matching how `writeFuncImplArgChecks` consumes
them. -/
inductive TypeExpr where
  | base (key : TKey) (bounds : Option (Option Int × Option Int))
  | ptr (inner : TypeExpr)
  | array (len : Nat) (inner : TypeExpr)
  deriving DecidableEq, Repr

/-- `IsRefined()`: the type carries refinement bounds. -/
def TypeExpr.isRefined : TypeExpr → Bool
  | .base _ b => b.isSome
  | _ => false

/-- Whether the outermost decorator is `ptr`. -/
def TypeExpr.isPtr : TypeExpr → Bool
  | .ptr _ => true
  | _ => false

/-- The innermost name key. -/
def TypeExpr.nameKey : TypeExpr → TKey
  | .base k _ => k
  | .ptr t => t.nameKey
  | .array _ t => t.nameKey

/-- The `for ; x.Decorator().Key() == t.KeyOpenBracket; x = x.Inner()`
loop in `writeCTypeName`. -/
def TypeExpr.stripArrays : TypeExpr → TypeExpr
  | .array _ inner => inner.stripArrays
  | t => t

/-- `maxNumPointers = 16` — an arbitrary implementation restriction. -/
def maxNumPointers : Nat := 16

/-- The pointer-counting walk of `writeCTypeName`: every non-innermost
node must be a `ptr` decorator; at most `maxNumPointers` of them. -/
def countPtrs : TypeExpr → Nat → Except Err (Nat × TKey)
  | .base k _, n => Except.ok (n, k)
  | .ptr inner, n =>
    if n == maxNumPointers then Except.error (Err.cannotConvertType "too many ptrs")
    else countPtrs inner (n + 1)
  | .array _ _, _ => Except.error (Err.cannotConvertType "non-ptr decorator under ptr")

/-- The trailing `[N]` array extents, outermost first. -/
def outerArraySuffix : TypeExpr → String
  | .array len inner => "[" ++ toString len ++ "]" ++ outerArraySuffix inner
  | _ => ""

/-- `func (g *gen) writeCTypeName(n *a.TypeExpr, varNamePrefix string,
varName string) error`. -/
def writeCTypeName (pkg : String) (n : TypeExpr) (pfx nm : String) :
    Except Err String := do
  let x := n.stripArrays
  let (np, k) ← countPtrs x 0
  let bse := match cTypeNames k with
    | some s => s
    | none => "puffs_" ++ pkg ++ "_" ++ k.str
  Except.ok (bse ++ String.mk (List.replicate np '*') ++ " " ++ pfx ++ nm
    ++ outerArraySuffix n)

/-! ## Structs -/

/-- A struct field: name, type, and the constructor default value
(`f.DefaultValue()`'s constant value), if declared. -/
structure FieldD where
  name : String
  typ : TypeExpr
  defaultValue : Option Int
  deriving DecidableEq, Repr

structure StructD where
  name : String
  fields : List FieldD
  public : Bool
  suspendible : Bool
  deriving DecidableEq, Repr

/-- `func (g *gen) writeStruct(n *a.Struct) error` — the full typedef,
comment lines included. -/
def writeStruct (pkg : String) (n : StructD) : Except Err String := do
  let fieldDecls ← exMapM (fun o =>
    (writeCTypeName pkg o.typ fPfx o.name).map (fun s => s ++ ";\n")) n.fields
  Except.ok <|
    "typedef struct \x7b\n"
    ++ "// Do not access the private_impl's fields directly. There is no API/ABI\n"
    ++ "// compatibility or safety guarantee if you do so. Instead, use the\n"
    ++ "// puffs_" ++ pkg ++ "_" ++ n.name ++ "_etc functions.\n"
    ++ "//\n"
    ++ "// In C++, these fields would be \"private\", but C does not support that.\n"
    ++ "//\n"
    ++ "// It is a struct, not a struct*, so that it can be stack allocated.\n"
    ++ "struct \x7b\n"
    ++ (if n.suspendible then
          "puffs_" ++ pkg ++ "_status status;\n" ++ "uint32_t magic;\n"
        else "")
    ++ strConcat fieldDecls
    ++ "\x7d private_impl;\n \x7d puffs_" ++ pkg ++ "_" ++ n.name ++ ";\n\n"

/-- `func (g *gen) writeCtorSignature(n *a.Struct, public bool, ctor bool)`. -/
def writeCtorSignature (pkg : String) (n : StructD) (pub ctor : Bool) : String :=
  let ctorName := if ctor then "constructor" else "destructor"
  let doc :=
    if ctor && pub then
      "// puffs_" ++ pkg ++ "_" ++ n.name ++ "_" ++ ctorName
        ++ " is a constructor function.\n"
      ++ "//\n"
      ++ "// It should be called before any other puffs_" ++ pkg ++ "_" ++ n.name
        ++ "_* function.\n"
      ++ "//\n"
      ++ "// Pass PUFFS_VERSION and 0 for puffs_version and for_internal_use_only.\n"
    else ""
  doc
  ++ "void puffs_" ++ pkg ++ "_" ++ n.name ++ "_" ++ ctorName
  ++ "(puffs_" ++ pkg ++ "_" ++ n.name ++ " *self"
  ++ (if ctor then ", uint32_t puffs_version, uint32_t for_internal_use_only" else "")
  ++ ")"

/-- `func (g *gen) writeCtorPrototype(n *a.Struct) error` — nothing for
non-suspendible structs, else constructor then destructor prototypes. -/
def writeCtorPrototype (pkg : String) (n : StructD) : String :=
  if !n.suspendible then ""
  else
    writeCtorSignature pkg n n.public true ++ ";\n\n"
    ++ writeCtorSignature pkg n n.public false ++ ";\n\n"

/-- Default-value assignments in the constructor body. -/
def ctorDefaultAssigns (fields : List FieldD) : String :=
  strConcat (fields.map (fun f =>
    match f.defaultValue with
    | some dv => "self->private_impl." ++ fPfx ++ f.name ++ " = " ++ toString dv ++ ";\n"
    | none => ""))

/-- The recursive sub-struct constructor/destructor calls: only
undecorated fields whose named type is in the struct map. -/
def ctorSubStructCalls (pkg : String) (structNames : List String)
    (fields : List FieldD) (ctor : Bool) : String :=
  strConcat (fields.map (fun f =>
    match f.typ with
    | .base (.ident s) _ =>
      if structNames.contains s then
        if ctor then
          "puffs_" ++ pkg ++ "_" ++ s ++ "_constructor(&self->private_impl."
            ++ fPfx ++ f.name ++ ",PUFFS_VERSION, PUFFS_ALREADY_ZEROED);\n"
        else
          "puffs_" ++ pkg ++ "_" ++ s ++ "_destructor(&self->private_impl."
            ++ fPfx ++ f.name ++ ");\n"
      else ""
    | _ => ""))

/-- One constructor-or-destructor body of `writeCtorImpl`. -/
def writeCtorImplOne (pkg : String) (structNames : List String) (n : StructD)
    (ctor : Bool) : String :=
  writeCtorSignature pkg n false ctor
  ++ "\x7b\n"
  ++ "if (!self) \x7b return; \x7d\n"
  ++ (if ctor then
        "if (puffs_version != PUFFS_VERSION) \x7b\n"
        ++ "self->private_impl.status = puffs_" ++ pkg ++ "_error_bad_version;\n"
        ++ "return;\n"
        ++ "\x7d\n"
        ++ "if (for_internal_use_only != PUFFS_ALREADY_ZEROED) \x7bmemset(self, 0, sizeof(*self)); \x7d\n"
        ++ "self->private_impl.magic = PUFFS_MAGIC;\n"
        ++ ctorDefaultAssigns n.fields
      else "")
  ++ ctorSubStructCalls pkg structNames n.fields ctor
  ++ "\x7d\n\n"

/-- `func (g *gen) writeCtorImpl(n *a.Struct) error`. -/
def writeCtorImpl (pkg : String) (structNames : List String) (n : StructD) : String :=
  if !n.suspendible then ""
  else
    writeCtorImplOne pkg structNames n true
    ++ writeCtorImplOne pkg structNames n false

/-! ## Status code emission -/

/-- One built-in enum entry: `g.printf("%s = %d%s,\n", g.cName(s), -2*i, nudge)`. -/
def builtInEnumLine (pkg : String) (i : Nat) (s : String) : String :=
  cName pkg s ++ " = " ++ toString (-2 * (i : Int))
    ++ (if hasPfx "error " s then "+1" else "") ++ ",\n"

/-- One user-defined enum entry:
`g.printf("%s = %d%s,\n", s.name, -2*(userDefinedStatusBase+i), nudge)`. -/
def userEnumLine (i : Nat) (s : Status) : String :=
  s.name ++ " = " ++ toString (-2 * ((userDefinedStatusBase : Int) + i))
    ++ (if s.isError then "+1" else "") ++ ",\n"

/-- The `typedef enum { … } puffs_PKG_status;` block of `genHeader`. -/
def genStatusEnum (pkg : String) (userList : List Status) : String :=
  "typedef enum \x7b\n"
  ++ strConcat (builtInStatuses.enum.map (fun p => builtInEnumLine pkg p.1 p.2))
  ++ strConcat (userList.enum.map (fun p => userEnumLine p.1 p.2))
  ++ "\x7d puffs_" ++ pkg ++ "_status;\n\n"

/-- Go's `%q` escaping for one character (the messages the backend
quotes are ASCII; control characters get a hex escape). -/
def goQuoteChar (c : Char) : String :=
  if c = '"' then "\\\""
  else if c = '\\' then "\\\\"
  else if c = '\n' then "\\n"
  else if c = '\t' then "\\t"
  else if c.toNat < 32 ∨ c.toNat = 127 then
    "\\x" ++ String.mk (Nat.toDigits 16 c.toNat)
  else String.singleton c

/-- Go's `%q` applied to a string. -/
def goQuote (s : String) : String :=
  "\"" ++ strConcat (s.data.map goQuoteChar) ++ "\""

/-- Strip the `status ` / `error ` prefix of a built-in status string, as
`genImpl` does before building the strings table entry. -/
def stripKeyword (s : String) : String :=
  if hasPfx "status " s then String.mk (s.data.drop "status ".data.length)
  else if hasPfx "error " s then String.mk (s.data.drop "error ".data.length)
  else s

/-- The `const char* puffs_PKG_status_strings[N] = {…};` table of `genImpl`. -/
def statusStringsTable (pkg : String) (userList : List Status) : String :=
  "const char* puffs_" ++ pkg ++ "_status_strings["
  ++ toString (builtInStatuses.length + userList.length) ++ "] = \x7b\n"
  ++ strConcat (builtInStatuses.map (fun s => goQuote (pkg ++ ": " ++ stripKeyword s) ++ ","))
  ++ strConcat (userList.map (fun s => goQuote (pkg ++ ": " ++ s.msg) ++ ","))
  ++ "\x7d;\n\n"

/-- The `puffs_PKG_status_is_error` implementation line of `genImpl`. -/
def statusIsErrorImpl (pkg : String) : String :=
  "bool puffs_" ++ pkg ++ "_status_is_error(puffs_" ++ pkg
  ++ "_status s) \x7breturn s & 1; \x7d\n\n"

/-- The `puffs_PKG_status_string` implementation of `genImpl`. -/
def statusStringImpl (pkg : String) (userList : List Status) : String :=
  let b := builtInStatuses.length
  "const char* puffs_" ++ pkg ++ "_status_string(puffs_" ++ pkg ++ "_status s) \x7b\n"
  ++ "s = -(s >> 1); if (0 <= s) \x7b\n"
  ++ "if (s < " ++ toString b ++ ") \x7b return puffs_" ++ pkg ++ "_status_strings[s]; \x7d\n"
  ++ "s -= " ++ toString (userDefinedStatusBase - b) ++ ";\n"
  ++ "if ((" ++ toString b ++ " <= s) && (s < " ++ toString (b + userList.length)
    ++ ")) \x7b return puffs_" ++ pkg ++ "_status_strings[s]; \x7d\n"
  ++ "\x7d\nreturn \"" ++ pkg ++ ": unknown status\";\n"
  ++ "\x7d\n\n"

/-! ## Expressions -/

/-- Identifier slots (`ID1`): the token keys the backend inspects plus
interned plain identifiers. -/
inductive IdKey where
  | kThis | kIn | kReadU8 | kWrite | kWriteU8 | kLowBits
  | kPlain (s : String)
  deriving DecidableEq, Repr

/-- `id.String(tm)` — the source spelling. -/
def IdKey.str : IdKey → String
  | .kThis => "this"
  | .kIn => "in"
  | .kReadU8 => "read_u8"
  | .kWrite => "write"
  | .kWriteU8 => "write_u8"
  | .kLowBits => "low_bits"
  | .kPlain s => s

/-- Operator keys appearing in `cOpNames`. -/
inductive OpKey where
  | eq | plusEq | minusEq | starEq | slashEq | shiftLEq | shiftREq
  | ampEq | ampHatEq | pipeEq | hatEq
  | uPlus | uMinus | uNot
  | bPlus | bMinus | bStar | bSlash | bShiftL | bShiftR | bAmp | bAmpHat
  | bPipe | bHat | bNotEq | bLessThan | bLessEq | bEqEq | bGreaterEq
  | bGreaterThan | bAnd | bOr
  | aPlus | aStar | aAmp | aPipe | aHat | aAnd | aOr
  deriving DecidableEq, Repr

/-- `var cOpNames = [256]string{...}`. -/
def cOpName : OpKey → String
  | .eq => " = " | .plusEq => " += " | .minusEq => " -= " | .starEq => " *= "
  | .slashEq => " /= " | .shiftLEq => " <<= " | .shiftREq => " >>= "
  | .ampEq => " &= " | .ampHatEq => " no_such_amp_hat_C_operator "
  | .pipeEq => " |= " | .hatEq => " ^= "
  | .uPlus => "+" | .uMinus => "-" | .uNot => "!"
  | .bPlus => " + " | .bMinus => " - " | .bStar => " * " | .bSlash => " / "
  | .bShiftL => " << " | .bShiftR => " >> " | .bAmp => " & "
  | .bAmpHat => " no_such_amp_hat_C_operator " | .bPipe => " | " | .bHat => " ^ "
  | .bNotEq => " != " | .bLessThan => " < " | .bLessEq => " <= "
  | .bEqEq => " == " | .bGreaterEq => " >= " | .bGreaterThan => " > "
  | .bAnd => " && " | .bOr => " || "
  | .aPlus => " + " | .aStar => " * " | .aAmp => " & " | .aPipe => " | "
  | .aHat => " ^ " | .aAnd => " && " | .aOr => " || "

mutual

/-- The expression AST, mirroring the accessors the backend reads:
`ID0` (the constructor), `ID1`, `LHS`/`RHS`, `Args`, the
`CallSuspendible`/`CallImpure` flags, `ConstValue` (the `lit` node) and
`MType` (carried on calls, read by the `read_u8` lowering). -/
inductive Expr where
  | id (k : IdKey)
  | call (susp impure : Bool) (mtype : TypeExpr) (lhs : Expr) (args : ExprList)
  | dot (lhs : Expr) (sel : IdKey)
  | index (lhs idx : Expr)
  | binOp (op : OpKey) (lhs rhs : Expr)
  | asCast (lhs : Expr) (t : TypeExpr)
  | unOp (op : OpKey) (arg : Expr)
  | assocOp (op : OpKey) (args : ExprList)
  | lit (v : Int) (isBool : Bool)
  deriving DecidableEq, Repr

/-- `Args()` — argument lists, as part of the mutual family so that the
emitters can recurse structurally (and hence compute in the kernel). -/
inductive ExprList where
  | nil
  | cons (e : Expr) (es : ExprList)
  deriving DecidableEq, Repr

end

def ExprList.length : ExprList → Nat
  | .nil => 0
  | .cons _ es => 1 + es.length

/-- `CallSuspendible()`: this very node is a suspendible call. -/
def Expr.callSuspendible : Expr → Bool
  | .call susp _ _ _ _ => susp
  | _ => false

/-- `ID1()` of an expression node, where it exists. -/
def Expr.id1 : Expr → Option IdKey
  | .id k => some k
  | .dot _ sel => some sel
  | _ => none

mutual

/-- `Suspendible()`: the expression contains a suspendible call (the
flag the external type checker sets). -/
def Expr.suspendible : Expr → Bool
  | .id _ => false
  | .call susp _ _ lhs args => susp || lhs.suspendible || suspList args
  | .dot lhs _ => lhs.suspendible
  | .index lhs idx => lhs.suspendible || idx.suspendible
  | .binOp _ lhs rhs => lhs.suspendible || rhs.suspendible
  | .asCast lhs _ => lhs.suspendible
  | .unOp _ arg => arg.suspendible
  | .assocOp _ args => suspList args
  | .lit _ _ => false

def suspList : ExprList → Bool
  | .nil => false
  | .cons e es => e.suspendible || suspList es

end

/-- `MType()` — only read on call nodes (the `read_u8` lowering); the
non-call fallback is never reached there. -/
def mtypeOf : Expr → TypeExpr
  | .call _ _ m _ _ => m
  | _ => TypeExpr.base (TKey.ident "") none

/-! ## Pattern matchers for suspendible call shapes -/

/-- `func isInSrcReadU8(tm *t.Map, n *a.Expr) bool`. -/
def isInSrcReadU8 : Expr → Bool
  | .call true _ _ (.dot (.dot (.id .kIn) (.kPlain "src")) .kReadU8) .nil => true
  | _ => false

/-- `func isInDst(tm *t.Map, n *a.Expr, methodName t.Key) bool`. -/
def isInDst (method : IdKey) (n : Expr) : Bool :=
  match n with
  | .call true _ _ (.dot (.dot (.id .kIn) (.kPlain "dst")) sel) (.cons _ .nil) =>
    sel == method
  | _ => false

/-- `func isThisDecodeHeader(tm *t.Map, n *a.Expr) bool`. -/
def isThisDecodeHeader : Expr → Bool
  | .call true _ _ (.dot (.id .kThis) (.kPlain "decode_header")) (.cons _ .nil) =>
    true
  | _ => false

/-- `func isLowBits(tm *t.Map, n *a.Expr) bool` (requires the call not be
impure). -/
def isLowBits : Expr → Bool
  | .call _ impure _ (.dot _ .kLowBits) (.cons _ .nil) => !impure
  | _ => false

/-! ## Per-function scratch state -/

def maxTemp : Nat := 10000

/-- Modelled from the spec: `a.MaxBodyDepth` lives in the external
`lang/ast` package; the spec names the cap without fixing its value, and
no claim depends on it. -/
def MaxBodyDepth : Nat := 255

/-- Modelled from the spec: `a.MaxExprDepth` lives in the external
`lang/ast` package; the spec names the cap without fixing its value, and
no claim depends on it. -/
def MaxExprDepth : Nat := 255

/-- The `perFunc` scratch state, reset at each function. -/
structure PF where
  tempW : Nat
  tempR : Nat
  public : Bool
  suspendible : Bool
  recvName : Option String
  jumpTargets : List (Nat × Nat)
  deriving DecidableEq, Repr

/-- The package-level context the emitters read. -/
structure Ctx where
  pkg : String
  statusMap : List (String × Status)
  deriving DecidableEq, Repr

/-- `func (g *gen) jumpTarget(n *a.While) (uint32, error)`: dense label
ids allocated on first sight, keyed by `while`-node identity. -/
def jumpTarget (pf : PF) (wid : Nat) : Except Err (Nat × PF) :=
  match pf.jumpTargets.lookup wid with
  | some jt => Except.ok (jt, pf)
  | none =>
    let jt := pf.jumpTargets.length
    if jt == 1000000 then Except.error Err.tooManyJumpTargets
    else Except.ok (jt, { pf with jumpTargets := pf.jumpTargets ++ [(wid, jt)] })

/-! ## Expression lowering -/

/-- The `status = …; exit` form used inside suspendible-call guards:
`goto cleanup0;` in a public suspendible function, `return status;`
otherwise. -/
def suspExit (pf : PF) : String :=
  if pf.public && pf.suspendible then "goto cleanup0;" else "return status;"

mutual

/-- `func (g *gen) writeExpr(n *a.Expr, rp replacementPolicy,
pp parenthesesPolicy, depth uint32) error`.  `rp = true` is
`replaceCallSuspendibles`, `pp = true` is `parenthesesOptional`.  The
helpers `writeExprOther`, `writeExprBinaryOp`, `writeExprAs` and
`writeExprAssociativeOp` of the source are inlined as the corresponding
match arms (labelled below) so that the recursion is structural. -/
def writeExpr (ctx : Ctx) (n : Expr) (rp pp : Bool) (depth : Nat) (pf : PF) :
    Except Err (String × PF) :=
  if depth > MaxExprDepth then Except.error Err.exprTooDeep
  else
    let depth := depth + 1
    if rp && n.callSuspendible then
      if pf.tempR ≥ pf.tempW then Except.error Err.tempOutOfSync
      else Except.ok (tPfx ++ toString pf.tempR, { pf with tempR := pf.tempR + 1 })
    else
      match n with
      | .lit v isBool =>
        if !isBool then Except.ok (toString v, pf)
        else if v = 0 then Except.ok ("false", pf)
        else if v = 1 then Except.ok ("true", pf)
        else Except.error (Err.boolConstNot01 (toString v))
      | .binOp op lhs rhs => do
        -- writeExprBinaryOp (the non-`as` path)
        let (s1, pf) ← writeExpr ctx lhs rp false depth pf
        let (s2, pf) ← writeExpr ctx rhs rp false depth pf
        if pp then Except.ok (s1 ++ cOpName op ++ s2, pf)
        else Except.ok ("(" ++ s1 ++ cOpName op ++ s2 ++ ")", pf)
      | .asCast lhs t => do
        -- writeExprAs: `x as T` lowers to `((T)(x))`
        let tn ← writeCTypeName ctx.pkg t "" ""
        let (s1, pf) ← writeExpr ctx lhs rp false depth pf
        Except.ok ("((" ++ tn ++ ")(" ++ s1 ++ "))", pf)
      | .unOp _ _ =>
        -- writeExprUnaryOp is an unimplemented TODO in the source: it
        -- emits nothing and reports no error
        Except.ok ("", pf)
      | .assocOp op args =>
        -- writeExprAssociativeOp
        writeExprAssocList ctx (cOpName op) args true rp depth pf
      | .id k =>
        -- writeExprOther, ID0 == 0
        if k = IdKey.kThis then Except.ok ("self->private_impl", pf)
        else Except.ok (vPfx ++ k.str, pf)
      | .call susp impure mtype lhs args =>
        -- writeExprOther, t.KeyOpenParen
        if isLowBits (.call susp impure mtype lhs args) then
          match lhs, args with
          | .dot recv _, .cons x _ => do
            let (s1, pf) ← writeExpr ctx recv rp false depth pf
            let (s2, pf) ← writeExpr ctx x rp false depth pf
            Except.ok ("PUFFS_LOW_BITS(" ++ s1 ++ "," ++ s2 ++ ")", pf)
          | _, _ => Except.error (Err.unrecognizedKind "openParen")
        else Except.error (Err.unrecognizedKind "openParen")
      | .index lhs idx => do
        -- writeExprOther, t.KeyOpenBracket
        let (s1, pf) ← writeExpr ctx lhs rp false depth pf
        let (s2, pf) ← writeExpr ctx idx rp true depth pf
        Except.ok (s1 ++ "[" ++ s2 ++ "]", pf)
      | .dot lhs sel =>
        -- writeExprOther, t.KeyDot
        if lhs.id1 = some IdKey.kIn then Except.ok (aPfx ++ sel.str, pf)
        else do
          let (s1, pf) ← writeExpr ctx lhs rp false depth pf
          Except.ok (s1 ++ "." ++ fPfx ++ sel.str, pf)

/-- The argument loop of `writeExprAssociativeOp`. -/
def writeExprAssocList (ctx : Ctx) (opName : String) (args : ExprList)
    (first : Bool) (rp : Bool) (depth : Nat) (pf : PF) :
    Except Err (String × PF) :=
  match args with
  | .nil => Except.ok ("", pf)
  | .cons o rest => do
    let (s1, pf) ← writeExpr ctx o rp false depth pf
    let (s2, pf) ← writeExprAssocList ctx opName rest false rp depth pf
    Except.ok ((if first then "" else opName) ++ s1 ++ s2, pf)

end

mutual

/-- `func (g *gen) writeCallSuspendibles(n *a.Expr, depth uint32) error`:
for a non-suspendible node, recurse over its `SubNodes()` (LHS / MHS /
RHS, here written out per node kind) and then its `Args()`, in that
order; lower each recognized suspendible call pattern to its
guard-effect-temporary block. -/
def writeCallSuspendibles (ctx : Ctx) (n : Expr) (depth : Nat) (pf : PF) :
    Except Err (String × PF) :=
  if !n.callSuspendible then
    if depth > MaxExprDepth then Except.error Err.exprTooDeep
    else
      match n with
      | .id _ => Except.ok ("", pf)
      | .lit _ _ => Except.ok ("", pf)
      | .call _ _ _ lhs args => do
        let (s1, pf) ← writeCallSuspendibles ctx lhs (depth + 1) pf
        let (s2, pf) ← writeCallSuspList ctx args (depth + 1) pf
        Except.ok (s1 ++ s2, pf)
      | .dot lhs _ => writeCallSuspendibles ctx lhs (depth + 1) pf
      | .index lhs idx => do
        let (s1, pf) ← writeCallSuspendibles ctx lhs (depth + 1) pf
        let (s2, pf) ← writeCallSuspendibles ctx idx (depth + 1) pf
        Except.ok (s1 ++ s2, pf)
      | .binOp _ lhs rhs => do
        let (s1, pf) ← writeCallSuspendibles ctx lhs (depth + 1) pf
        let (s2, pf) ← writeCallSuspendibles ctx rhs (depth + 1) pf
        Except.ok (s1 ++ s2, pf)
      | .asCast lhs _ => writeCallSuspendibles ctx lhs (depth + 1) pf
      | .unOp _ arg => writeCallSuspendibles ctx arg (depth + 1) pf
      | .assocOp _ args => writeCallSuspList ctx args (depth + 1) pf
  else if isInSrcReadU8 n then
    if pf.tempW > maxTemp then Except.error Err.tooManyTemporaries
    else do
      let temp := pf.tempW
      let pf := { pf with tempW := pf.tempW + 1 }
      let tdecl ← writeCTypeName ctx.pkg (mtypeOf n) tPfx (toString temp)
      Except.ok ("if (a_src->ri >= a_src->wi) \x7b status = "
        ++ "a_src->closed ? puffs_" ++ ctx.pkg ++ "_error_unexpected_eof : puffs_"
        ++ ctx.pkg ++ "_status_short_read;"
        ++ suspExit pf
        ++ "\x7d\n"
        ++ tdecl ++ " = a_src->ptr[a_src->ri++];\n", pf)
  else if isInDst IdKey.kWrite n then
    Except.ok ("if (a_dst->closed) \x7b status = puffs_" ++ ctx.pkg
      ++ "_error_closed_for_writes;"
      ++ suspExit pf
      ++ "\x7d\n"
      ++ "if ((a_dst->len - a_dst->wi) < (sizeof(self->private_impl.f_stack) - v_s)) \x7b"
      ++ "status = puffs_" ++ ctx.pkg ++ "_status_short_write;"
      ++ suspExit pf
      ++ "\x7d\n"
      ++ "memmove(a_dst->ptr + a_dst->wi,self->private_impl.f_stack + v_s,"
      ++ "sizeof(self->private_impl.f_stack) - v_s);\n"
      ++ "a_dst->wi += sizeof(self->private_impl.f_stack) - v_s;\n", pf)
  else if isInDst IdKey.kWriteU8 n then
    match n with
    | .call _ _ _ _ (.cons x _) => do
      let (sx, pf') ← writeExpr ctx x true false depth pf
      Except.ok ("if (a_dst->wi >= a_dst->len) \x7b status = puffs_" ++ ctx.pkg
        ++ "_status_short_write;"
        ++ suspExit pf
        ++ "\x7d\n"
        ++ "a_dst->ptr[a_dst->wi++] = " ++ sx ++ ";\n", pf')
    | _ => Except.error (Err.unsupported "write_u8 without argument")
  else if isThisDecodeHeader n then
    Except.ok ("status = puffs_" ++ ctx.pkg ++ "_"
      ++ pf.recvName.getD "" ++ "_decode_header(self, a_src);\n"
      ++ "if (status) \x7b goto cleanup0; \x7d\n", pf)
  else Except.error (Err.unsupported "cannot convert Puffs call to C")

def writeCallSuspList (ctx : Ctx) (l : ExprList) (depth : Nat) (pf : PF) :
    Except Err (String × PF) :=
  match l with
  | .nil => Except.ok ("", pf)
  | .cons o rest => do
    let (s1, pf) ← writeCallSuspendibles ctx o depth pf
    let (s2, pf) ← writeCallSuspList ctx rest depth pf
    Except.ok (s1 ++ s2, pf)

end

/-- `func (g *gen) writeSuspendibles(n *a.Expr, depth uint32) error`. -/
def writeSuspendibles (ctx : Ctx) (n : Expr) (depth : Nat) (pf : PF) :
    Except Err (String × PF) :=
  if !n.suspendible then Except.ok ("", pf)
  else writeCallSuspendibles ctx n depth pf

/-! ## Statements -/

mutual

/-- Statement nodes, mirroring the `a.K*` kinds the backend handles.  A
`while` carries a node-identity tag `wid` standing for the Go AST
pointer used as the `jumpTargets` key; `jump` carries its resolved
target's tag. -/
inductive Stmt where
  | assert
  | assign (op : OpKey) (lhs rhs : Expr)
  | exprS (e : Expr)
  | ifS (i : IfStmt)
  | jump (isBreak : Bool) (target : Nat)
  | ret (msg : Option String)
  | varS (vname : String) (typ : TypeExpr) (value : Option Expr)
  | whileS (wid : Nat) (hasBreak hasContinue : Bool) (cond : Expr)
      (body : StmtList)
  deriving DecidableEq, Repr

/-- An `if` node: condition, both bodies, and the `else if` chain. -/
inductive IfStmt where
  | mk (cond : Expr) (bodyT bodyF : StmtList) (elseIf : ElseIf)
  deriving DecidableEq, Repr

/-- The optional `else if` continuation (spelled out so the family stays
mutually inductive and recursion stays structural). -/
inductive ElseIf where
  | none
  | some (i : IfStmt)
  deriving DecidableEq, Repr

/-- Statement lists, as part of the mutual family. -/
inductive StmtList where
  | nil
  | cons (s : Stmt) (rest : StmtList)
  deriving DecidableEq, Repr

end

def StmtList.length : StmtList → Nat
  | .nil => 0
  | .cons _ rest => 1 + rest.length

/-! ## Local-variable pre-scan (`writeVars`) -/

mutual

/-- The declaration loop of `writeVars`, entered with the depth already
incremented; nested blocks re-check the cap, as the recursive Go calls
do. -/
def writeVarsList (pkg : String) (block : StmtList) (depth : Nat) :
    Except Err String :=
  match block with
  | .nil => Except.ok ""
  | .cons o rest => do
    let s1 ← (match o with
      | .ifS i => writeVarsIf pkg i depth
      | .varS vname typ _ =>
        (writeCTypeName pkg typ vPfx vname).map (fun s => s ++ ";\n")
      | .whileS _ _ _ _ body =>
        if depth > MaxBodyDepth then Except.error Err.bodyTooDeep
        else writeVarsList pkg body (depth + 1)
      | _ => Except.ok "")
    let s2 ← writeVarsList pkg rest depth
    Except.ok (s1 ++ s2)

/-- The `for o := o.If(); o != nil; o = o.ElseIf()` loop of `writeVars`. -/
def writeVarsIf (pkg : String) (i : IfStmt) (depth : Nat) :
    Except Err String :=
  match i with
  | .mk _ bodyT bodyF elseIf => do
    let s1 ← (if depth > MaxBodyDepth then Except.error Err.bodyTooDeep
      else writeVarsList pkg bodyT (depth + 1))
    let s2 ← (if depth > MaxBodyDepth then Except.error Err.bodyTooDeep
      else writeVarsList pkg bodyF (depth + 1))
    let s3 ← (match elseIf with
      | .none => Except.ok ""
      | .some j => writeVarsIf pkg j depth)
    Except.ok (s1 ++ s2 ++ s3)

end

/-- `func (g *gen) writeVars(block []*a.Node, depth uint32) error`:
hoisted C declarations for every `var` in the body. -/
def writeVars (pkg : String) (block : StmtList) (depth : Nat) :
    Except Err String :=
  if depth > MaxBodyDepth then Except.error Err.bodyTooDeep
  else writeVarsList pkg block (depth + 1)

/-! ## Statement lowering (`writeStatement`) -/

mutual

/-- `func (g *gen) writeStatement(n *a.Node, depth uint32) error`. -/
def writeStatement (ctx : Ctx) (n : Stmt) (depth : Nat) (pf : PF) :
    Except Err (String × PF) :=
  if depth > MaxBodyDepth then Except.error Err.bodyTooDeep
  else
    let depth := depth + 1
    match n with
    | .assert => Except.ok ("", pf)
    | .assign op lhs rhs => do
      let (s1, pf) ← writeSuspendibles ctx lhs depth pf
      let (s2, pf) ← writeSuspendibles ctx rhs depth pf
      let (s3, pf) ← writeExpr ctx lhs true false depth pf
      let (s4, pf) ← writeExpr ctx rhs true false depth pf
      Except.ok (s1 ++ s2 ++ s3 ++ cOpName op ++ s4 ++ ";\n", pf)
    | .exprS e => do
      let (s1, pf) ← writeSuspendibles ctx e depth pf
      if e.callSuspendible then Except.ok (s1, pf)
      else Except.error (Err.unsupported "expr statement not call-suspendible")
    | .ifS i => do
      let (s1, nClose, pf) ← writeIfChain ctx i true 1 depth pf
      Except.ok (s1 ++ strConcat (List.replicate nClose "\x7d\n"), pf)
    | .jump isBreak target => do
      let (jt, pf) ← jumpTarget pf target
      let kw := if isBreak then "break" else "continue"
      Except.ok ("goto label_" ++ toString jt ++ "_" ++ kw ++ ";\n", pf)
    | .ret msg =>
      let retName := match msg with
        | none => "puffs_" ++ ctx.pkg ++ "_status_ok"
        | some m => ((ctx.statusMap.lookup m).map Status.name).getD ""
      if !pf.suspendible then Except.ok ("return;\n", pf)
      else if pf.public then
        Except.ok ("status = " ++ retName ++ "; goto cleanup0;\n", pf)
      else Except.ok ("return " ++ retName ++ ";\n", pf)
    | .varS vname typ value => do
      let (s0, pf) ← (match value with
        | some v => writeSuspendibles ctx v depth pf
        | none => Except.ok ("", pf))
      match typ with
      | .array len _ =>
        if value.isSome then
          Except.error
            (Err.unsupported "array initializers for non-zero default values")
        else
          Except.ok (s0 ++ "for (size_t i = 0; i < " ++ toString len
            ++ "; i++) \x7b " ++ vPfx ++ vname ++ "[i] = 0; \x7d\n", pf)
      | _ => do
        let (sv, pf) ← (match value with
          | some v => writeExpr ctx v true false 0 pf
          | none => Except.ok ("0", pf))
        Except.ok (s0 ++ vPfx ++ vname ++ " = " ++ sv ++ ";\n", pf)
    | .whileS wid hasBreak hasContinue cond body => do
      let (pre, pf) ← (if hasContinue then
          (jumpTarget pf wid).map (fun (jt, pf) =>
            ("label_" ++ toString jt ++ "_continue:;\n", pf))
        else Except.ok ("", pf))
      let (sc, pf) ← writeExpr ctx cond true true 0 pf
      let (sb, pf) ← writeStmtList ctx body depth pf
      let (post, pf) ← (if hasBreak then
          (jumpTarget pf wid).map (fun (jt, pf) =>
            ("label_" ++ toString jt ++ "_break:;\n", pf))
        else Except.ok ("", pf))
      Except.ok (pre ++ "while (" ++ sc ++ ") \x7b\n" ++ sb ++ "\x7d\n"
        ++ post, pf)

/-- The `if`/`else if` loop body of `writeStatement`'s `a.KIf` case,
returning the text and the accumulated number of close-braces. -/
def writeIfChain (ctx : Ctx) (i : IfStmt) (first : Bool) (nClose : Nat)
    (depth : Nat) (pf : PF) : Except Err (String × Nat × PF) :=
  match i with
  | .mk cond bodyT bodyF elseIf => do
    let (sPre, nClose, pf) ← (if cond.suspendible then do
        let opened := if first then "" else "\x7b"
        let nCloseNew ← (if !first then
            (if nClose == 1000 then Except.error Err.tooManyNestedIfs
             else Except.ok (nClose + 1))
          else Except.ok nClose)
        let (s1, pf) ← writeSuspendibles ctx cond depth pf
        Except.ok (opened ++ s1, nCloseNew, pf)
      else Except.ok ("", nClose, pf))
    let (sc, pf) ← writeExpr ctx cond true true 0 pf
    let (sT, pf) ← writeStmtList ctx bodyT depth pf
    if bodyF.length > 0 then do
      let (sF, pf) ← writeStmtList ctx bodyF depth pf
      Except.ok (sPre ++ "if (" ++ sc ++ ") \x7b\n" ++ sT
        ++ "\x7d else \x7b" ++ sF, nClose, pf)
    else
      match elseIf with
      | .none =>
        Except.ok (sPre ++ "if (" ++ sc ++ ") \x7b\n" ++ sT, nClose, pf)
      | .some j => do
        let (sE, nClose, pf) ← writeIfChain ctx j false nClose depth pf
        Except.ok (sPre ++ "if (" ++ sc ++ ") \x7b\n" ++ sT
          ++ "\x7d else " ++ sE, nClose, pf)

def writeStmtList (ctx : Ctx) (l : StmtList) (depth : Nat) (pf : PF) :
    Except Err (String × PF) :=
  match l with
  | .nil => Except.ok ("", pf)
  | .cons o rest => do
    let (s1, pf) ← writeStatement ctx o depth pf
    let (s2, pf) ← writeStmtList ctx rest depth pf
    Except.ok (s1 ++ s2, pf)

end

/-! ## Functions -/

/-- A function declaration: receiver (struct name, if any), name, input
fields (`n.In().Fields()`), body, and the visibility / suspendibility
flags. -/
structure FuncD where
  receiver : Option String
  name : String
  inputs : List FieldD
  body : StmtList
  public : Bool
  suspendible : Bool

/-- `func (g *gen) writeFuncSignature(n *a.Func) error`. -/
def writeFuncSignature (pkg : String) (f : FuncD) : Except Err String := do
  let params ← exMapM (fun o => writeCTypeName pkg o.typ aPfx o.name) f.inputs
  let recvPart := match f.receiver with
    | some r => "_" ++ r
    | none => ""
  let selfPart := match f.receiver with
    | some r => "puffs_" ++ pkg ++ "_" ++ r ++ " *self"
    | none => ""
  let paramPart :=
    if f.receiver.isSome then
      strConcat (params.map (fun p => "," ++ p))
    else
      match params with
      | [] => ""
      | p :: rest => p ++ strConcat (rest.map (fun q => "," ++ q))
  Except.ok ((if f.suspendible then "puffs_" ++ pkg ++ "_status" else "void")
    ++ " puffs_" ++ pkg ++ recvPart ++ "_" ++ f.name ++ "("
    ++ selfPart ++ paramPart ++ ")")

/-- `func (g *gen) writeFuncPrototype(n *a.Func) error`. -/
def writeFuncPrototype (pkg : String) (f : FuncD) : Except Err String :=
  (writeFuncSignature pkg f).map (fun s => s ++ ";\n\n")

/-- The bound-zeroing step of `writeFuncImplArgChecks`
(`bounds[i] != nil && ntb[i] != nil && bounds[i].Cmp(ntb[i]) == 0`
sets `bounds[i] = nil`). -/
def cancelBound (b nb : Option Int) : Option Int :=
  if b.isSome && nb.isSome && b == nb then none else b

/-- One comparison check per surviving bound
(`fmt.Sprintf("%s%s %c %s", aPrefix, o.Name().String(g.tm), op, b)`). -/
def boundToCheck (name op : String) : Option Int → List String
  | some b => [aPfx ++ name ++ op ++ toString b]
  | none => []

/-- The per-input check strings of `writeFuncImplArgChecks`: a non-null
check for a pointer-typed input, and a comparison per surviving
refinement bound for a refined input, a bound surviving exactly when its
constant differs from the numeric type's natural bound. -/
def argCheckOf (o : FieldD) : List String :=
  if o.typ.isPtr then ["!" ++ aPfx ++ o.name]
  else match o.typ with
    | .base key (some (lo, hi)) =>
      let ntb := numTypeBounds key
      boundToCheck o.name " < " (cancelBound lo ntb.1)
        ++ boundToCheck o.name " > " (cancelBound hi ntb.2)
    | _ => []

/-- `func (g *gen) writeFuncImplArgChecks(n *a.Func) error`: the combined
argument-validation `if`.  No Go code path returns an error here, so the
result is a plain string. -/
def writeFuncImplArgChecks (pkg : String) (f : FuncD) : String :=
  let checks := f.inputs.flatMap argCheckOf
  match checks with
  | [] => ""
  | c :: rest =>
    "if (" ++ c ++ strConcat (rest.map (fun x => " || " ++ x)) ++ ") \x7b"
    ++ (if f.suspendible then
          "status = puffs_" ++ pkg ++ "_error_bad_argument; goto cleanup0;"
        else if f.receiver.isSome then
          "self->private_impl.status = puffs_" ++ pkg
            ++ "_error_bad_argument; return;"
        else "return;")
    ++ "\x7d\n"

/-- The prologue of `writeFuncImpl`: receiver null-check, status latch,
and magic check. -/
def funcImplPrologue (pkg : String) (f : FuncD) : String :=
  (if f.public && f.receiver.isSome then
    "if (!self) \x7b\n"
    ++ (if f.suspendible then "return puffs_" ++ pkg ++ "_error_bad_receiver;"
        else "return;")
    ++ "\x7d\n"
   else "")
  ++ (if f.suspendible then
        "puffs_" ++ pkg ++ "_status status = "
        ++ (if f.receiver.isSome then
              "self->private_impl.status;\n"
              ++ (if f.public then "if (status & 1) \x7b return status; \x7d" else "")
            else "puffs_" ++ pkg ++ "_status_ok;\n")
        ++ (if f.public then
              "if (self->private_impl.magic != PUFFS_MAGIC) \x7bstatus = puffs_"
              ++ pkg ++ "_error_constructor_not_called; goto cleanup0; \x7d\n"
            else "")
      else if f.receiver.isSome && f.public then
        "if (self->private_impl.status & 1) \x7b return; \x7d"
        ++ "if (self->private_impl.magic != PUFFS_MAGIC) \x7bself->private_impl.status = puffs_"
        ++ pkg ++ "_error_constructor_not_called; return; \x7d\n"
      else "")

/-- The `perFunc` reset at entry to `writeFuncImpl`
(`g.perFunc = perFunc{funk: n}` plus the flag assignments). -/
def initPF (f : FuncD) : PF :=
  { tempW := 0, tempR := 0, public := f.public,
    suspendible := f.suspendible, recvName := f.receiver,
    jumpTargets := [] }

/-- The body epilogue: `cleanup0:` label and status write-back (public
suspendible only), then `return status;`. -/
def funcEpilogue (pf : PF) : String :=
  if pf.suspendible then
    (if pf.public then "cleanup0: self->private_impl.status = status;\n" else "")
    ++ "return status;\n"
  else ""

/-- `func (g *gen) writeFuncImpl(n *a.Func) error`, up to but not
including the final `tempW == tempR` consistency check: emitted text and
the final per-function scratch state. -/
def writeFuncImplCore (ctx : Ctx) (f : FuncD) : Except Err (String × PF) := do
  let sig ← writeFuncSignature ctx.pkg f
  let argChecks := if f.public then writeFuncImplArgChecks ctx.pkg f else ""
  let vars ← writeVars ctx.pkg f.body 0
  let (stmts, pf) ← writeStmtList ctx f.body 0 (initPF f)
  Except.ok (sig ++ "\x7b\n"
    ++ funcImplPrologue ctx.pkg f
    ++ argChecks ++ "\n"
    ++ vars ++ "\n"
    ++ stmts ++ "\n"
    ++ funcEpilogue pf
    ++ "\x7d\n\n", pf)

/-- `writeFuncImpl` with its final internal-invariant check:
`if g.perFunc.tempW != g.perFunc.tempR { return fmt.Errorf(...) }`. -/
def writeFuncImpl (ctx : Ctx) (f : FuncD) : Except Err String := do
  let (s, pf) ← writeFuncImplCore ctx f
  if pf.tempW ≠ pf.tempR then Except.error Err.tempOutOfSync
  else Except.ok s

/-! ## Top-level declarations and the driver -/

/-- A top-level declaration with its kind discriminator. -/
inductive TopLevel where
  | statusD (d : StatusDecl)
  | structD (s : StructD)
  | funcD (f : FuncD)

/-- A source file is its ordered list of top-level declarations; a
package is its ordered list of files. -/
def Files := List (List TopLevel)

/-- The status declarations of a package in `forEachStatus bothPubPri`
visiting order (files in order, declarations in order, other kinds
skipped). -/
def statusDecls (files : Files) : List StatusDecl :=
  files.flatMap (fun file => file.filterMap (fun n =>
    match n with
    | .statusD d => some d
    | _ => none))

/-- The struct declarations of a package in collection order. -/
def structDecls (files : Files) : List StructD :=
  files.flatMap (fun file => file.filterMap (fun n =>
    match n with
    | .structD s => some s
    | _ => none))

/-- The function declarations, optionally filtered by visibility
(`forEachFunc`): `none` is `bothPubPri`, `some true` is `pubOnly`,
`some false` is `priOnly`. -/
def funcDecls (vis : Option Bool) (files : Files) : List FuncD :=
  files.flatMap (fun file => file.filterMap (fun n =>
    match n with
    | .funcD f =>
      match vis with
      | none => some f
      | some pub => if f.public == pub then some f else none
    | _ => none))

/-- `forEachStatus(bothPubPri, (*gen).gatherStatuses)`. -/
def gatherAllStatuses (pkg : String) (files : Files) :
    Except Err (List Status) :=
  gatherStatuses pkg (statusDecls files)

/-- The `g.statusMap` built by `gatherStatuses`, keyed by the raw message
token. -/
def statusMapOf (pkg : String) (files : Files) : List (String × Status) :=
  (statusDecls files).map (fun d => (d.message, mkStatus pkg d))

/-- `func (g *gen) genHeader() error`.  `baseHdr` is the static base
header prelude, opaque to the backend. -/
def genHeader (pkg : String) (baseHdr : String) (userList : List Status)
    (structList : List StructD) (files : Files) : Except Err String := do
  -- strings.ToUpper; package names are lowercase ASCII identifiers.
  let includeGuard := "PUFFS_" ++ String.mk (pkg.data.map Char.toUpper) ++ "_H"
  let structTexts ← exMapM (writeStruct pkg) structList
  let protoTexts ← exMapM (writeFuncPrototype pkg) (funcDecls (some true) files)
  Except.ok <|
    "#ifndef " ++ includeGuard ++ "\n#define " ++ includeGuard ++ "\n\n"
    ++ "// Code generated by puffs-gen-c. DO NOT EDIT.\n\n"
    ++ baseHdr
    ++ "\n#ifdef __cplusplus\nextern \"C\" \x7b\n#endif\n\n"
    ++ "// ---------------- Status Codes\n\n"
    ++ "// Status codes are non-positive integers.\n"
    ++ "//\n"
    ++ "// The least significant bit indicates a non-recoverable status code: an error.\n"
    ++ genStatusEnum pkg userList
    ++ "bool puffs_" ++ pkg ++ "_status_is_error(puffs_" ++ pkg ++ "_status s);\n\n"
    ++ "const char* puffs_" ++ pkg ++ "_status_string(puffs_" ++ pkg ++ "_status s);\n\n"
    ++ "// ---------------- Structs\n\n"
    ++ strConcat structTexts
    ++ "// ---------------- Public Constructor and Destructor Prototypes\n\n"
    ++ strConcat ((structList.filter (fun n => n.public)).map (writeCtorPrototype pkg))
    ++ "// ---------------- Public Function Prototypes\n\n"
    ++ strConcat protoTexts
    ++ "\n#ifdef __cplusplus\n\x7d  // extern \"C\"\n#endif\n\n"
    ++ "#endif  // " ++ includeGuard ++ "\n\n"

/-- The `#define PUFFS_MAGIC` / `#define PUFFS_ALREADY_ZEROED` block of
`genImpl`, comments included. -/
def magicDefines : String :=
  "// PUFFS_MAGIC is a magic number to check that constructors are called. It's\n"
  ++ "// not foolproof, given C doesn't automatically zero memory before use, but it\n"
  ++ "// should catch 99.99% of cases.\n"
  ++ "//\n"
  ++ "// Its (non-zero) value is arbitrary, based on md5sum(\"puffs\").\n"
  ++ "#define PUFFS_MAGIC (0xCB3699CCU)\n\n"
  ++ "// PUFFS_ALREADY_ZEROED is passed from a container struct's constructor to a\n"
  ++ "// containee struct's constructor when the container has already zeroed the\n"
  ++ "// containee's memory.\n"
  ++ "//\n"
  ++ "// Its (non-zero) value is arbitrary, based on md5sum(\"zeroed\").\n"
  ++ "#define PUFFS_ALREADY_ZEROED (0x68602EF1U)\n\n"

/-- `func (g *gen) genImpl() error`.  `baseImplStr` is the static base
implementation prelude, opaque to the backend. -/
def genImpl (pkg : String) (baseImplStr : String) (userList : List Status)
    (structList : List StructD) (files : Files)
    (statusMap : List (String × Status)) : Except Err String := do
  let ctx : Ctx := { pkg := pkg, statusMap := statusMap }
  let structNames := structList.map (fun n => n.name)
  let priProtoTexts ← exMapM (writeFuncPrototype pkg) (funcDecls (some false) files)
  let implTexts ← exMapM (writeFuncImpl ctx) (funcDecls none files)
  Except.ok <|
    baseImplStr ++ "\n"
    ++ "// ---------------- Status Codes Implementations\n\n"
    ++ statusIsErrorImpl pkg
    ++ statusStringsTable pkg userList
    ++ statusStringImpl pkg userList
    ++ "// ---------------- Private Constructor and Destructor Prototypes\n\n"
    ++ strConcat ((structList.filter (fun n => !n.public)).map (writeCtorPrototype pkg))
    ++ "// ---------------- Private Function Prototypes\n\n"
    ++ strConcat priProtoTexts
    ++ "// ---------------- Constructor and Destructor Implementations\n\n"
    ++ magicDefines
    ++ strConcat (structList.map (writeCtorImpl pkg structNames))
    ++ "// ---------------- Function Implementations\n\n"
    ++ strConcat implTexts

/-- `func (g *gen) generate() error`: gather statuses, topologically sort
structs (`a.TopologicalSortStructs` is an external collaborator, passed
in as `topoSort`; `none` reports a cycle), then emit the header, the
marker line and the implementation. -/
def generate (pkg : String) (files : Files)
    (topoSort : List StructD → Option (List StructD))
    (baseHdr baseImplStr : String) : Except Err String := do
  let userList ← gatherAllStatuses pkg files
  let structList ← match topoSort (structDecls files) with
    | some l => Except.ok l
    | none => Except.error Err.cyclicStructs
  let statusMap := statusMapOf pkg files
  let hdr ← genHeader pkg baseHdr userList structList files
  let impl ← genImpl pkg baseImplStr userList structList files statusMap
  Except.ok (hdr ++ "// C HEADER ENDS HERE.\n\n" ++ impl)

/-! ## Theorems -/

set_option maxRecDepth 100000

/-- C2: the emitted status enum assigns built-in status at index `i` the
value `-2*i` with a `+1` nudge exactly when the status is an error, and
user-defined status at index `i` the value `-2*(128+i)` with `+1` exactly
when it is an error; consequently value `0` belongs only to index 0
(`status ok`), value `-1` only to index 1 (`error bad version`), every
emitted value is `≤ 0`, and the low bit of a value is 1 iff the status
is an error, agreeing with the emitted `status_is_error` predicate
`s & 1`. -/
theorem status_enum_value_scheme :
    (∀ (pkg : String) (i : Nat), i < builtInStatuses.length →
      builtInEnumLine pkg i (builtInStatuses.getD i "")
        = cName pkg (builtInStatuses.getD i "") ++ " = "
          ++ toString (-2 * (i : Int))
          ++ (if builtInIsError i then "+1" else "") ++ ",\n"
      ∧ builtInStatusValue i ≤ 0
      ∧ statusIsErrorC (builtInStatusValue i) = builtInIsError i
      ∧ (builtInStatusValue i = 0 ↔ i = 0)
      ∧ (builtInStatusValue i = -1 ↔ i = 1))
    ∧ builtInStatuses.getD 0 "" = "status ok"
    ∧ builtInStatuses.getD 1 "" = "error bad version"
    ∧ (∀ (j : Nat) (s : Status),
        userEnumLine j s
          = s.name ++ " = "
            ++ toString (-2 * ((userDefinedStatusBase : Int) + j))
            ++ (if s.isError then "+1" else "") ++ ",\n"
        ∧ userStatusValue s.isError j ≤ 0
        ∧ userStatusValue s.isError j ≠ 0
        ∧ userStatusValue s.isError j ≠ -1
        ∧ statusIsErrorC (userStatusValue s.isError j) = s.isError) := by
  refine ⟨?_, rfl, rfl, ?_⟩
  · intro pkg i hi
    have h9 : i < 9 := by simpa [builtInStatuses] using hi
    interval_cases i <;>
      exact ⟨rfl, by decide, by decide, by decide, by decide⟩
  · intro j s
    refine ⟨rfl, ?_, ?_, ?_, ?_⟩
    · cases hb : s.isError <;>
        simp [userStatusValue, enumEntryValue, userDefinedStatusBase] <;> omega
    · cases hb : s.isError <;>
        simp [userStatusValue, enumEntryValue, userDefinedStatusBase] <;> omega
    · cases hb : s.isError <;>
        simp [userStatusValue, enumEntryValue, userDefinedStatusBase] <;> omega
    · cases hb : s.isError <;>
        simp [statusIsErrorC, userStatusValue, enumEntryValue,
          userDefinedStatusBase] <;> omega

/-- Witness for C2 at built-in index 2 (`error bad receiver`). -/
theorem status_enum_value_scheme_witness :
    (2 : Nat) < builtInStatuses.length
    ∧ (builtInEnumLine "foo" 2 (builtInStatuses.getD 2 "")
        = cName "foo" (builtInStatuses.getD 2 "") ++ " = "
          ++ toString (-2 * ((2 : Nat) : Int))
          ++ (if builtInIsError 2 then "+1" else "") ++ ",\n"
      ∧ builtInStatusValue 2 ≤ 0
      ∧ statusIsErrorC (builtInStatusValue 2) = builtInIsError 2
      ∧ (builtInStatusValue 2 = 0 ↔ 2 = 0)
      ∧ (builtInStatusValue 2 = -1 ↔ 2 = 1)) :=
  ⟨by decide, status_enum_value_scheme.1 "foo" 2 (by decide)⟩

/-! ### C3: the `"bad magic"` user-defined error status -/

def badMagicDecl : StatusDecl :=
  { keyword := Keyword.error, message := "\"bad magic\"", public := true }

def fooBadMagicFiles : Files := [[TopLevel.statusD badMagicDecl]]

/-- The gathered status list of that package. -/
def fooBadMagicStatuses : List Status :=
  [⟨"puffs_foo_error_bad_magic", "bad magic", true⟩]

/-- C3 counterexample: for the package `foo` whose only user-defined
status is the error `"bad magic"`, the emitted status enum block (where
enum entries live) contains no text `-257`, hence no entry
`puffs_foo_error_bad_magic = -257,` — the backend prints the base `%d`
followed by the literal nudge `+1`, i.e. `= -256+1,` (value `-255`, not
`-257`). -/
theorem bad_magic_enum_entry_is_not_minus_257 :
    gatherAllStatuses "foo" fooBadMagicFiles = Except.ok fooBadMagicStatuses
    ∧ ¬ StrIn "-257" (genStatusEnum "foo" fooBadMagicStatuses)
    ∧ ¬ StrIn "puffs_foo_error_bad_magic = -257,"
        (genStatusEnum "foo" fooBadMagicStatuses) :=
  ⟨rfl, by decide, by decide⟩

/-- C3 (amended): for a package `foo` whose first user-defined status is
the error with message `"bad magic"`, the emitted status enum contains
the entry `puffs_foo_error_bad_magic = -256+1,` (the printed base
`-2*(128+0)` followed by the `+1` error nudge), and the status strings
table contains the entry `"foo: bad magic"`. -/
theorem bad_magic_enum_entry_and_string :
    gatherAllStatuses "foo" fooBadMagicFiles = Except.ok fooBadMagicStatuses
    ∧ StrIn "puffs_foo_error_bad_magic = -256+1,\n"
        (genStatusEnum "foo" fooBadMagicStatuses)
    ∧ StrIn "\"foo: bad magic\","
        (statusStringsTable "foo" fooBadMagicStatuses) :=
  ⟨rfl, by decide, by decide⟩

/-! ### C5: the Collector's status gathering -/

/-- The status record C5 describes for one declaration: the keyword
chooses the `error `/`status ` prefix, the unquoted message is
concatenated and fed through the Name Mangler. -/
def claimStatusOf (pkg : String) (d : StatusDecl) : Status :=
  { name := cName pkg
      ((if d.keyword == Keyword.error then "error " else "status ")
        ++ unquote d.message),
    msg := unquote d.message,
    isError := d.keyword == Keyword.error }

theorem gatherStatuses_spec (pkg : String) : ∀ (ds : List StatusDecl),
    ((∃ e, gatherStatuses pkg ds = Except.error e) ↔
      (∃ d ∈ ds, quotedOk d.message = false))
    ∧ (∀ l, gatherStatuses pkg ds = Except.ok l →
        l = ds.map (claimStatusOf pkg))
    ∧ (∀ e, gatherStatuses pkg ds = Except.error e →
        ∃ m, e = Err.badStatusMessage m) := by
  intro ds
  induction ds with
  | nil =>
    refine ⟨⟨?_, ?_⟩, ?_, ?_⟩
    · rintro ⟨e, he⟩; simp [gatherStatuses] at he
    · rintro ⟨d, hd, _⟩; cases hd
    · intro l hl; simp [gatherStatuses] at hl; simp [hl]
    · intro e he; simp [gatherStatuses] at he
  | cons d t ih =>
    by_cases hq : quotedOk d.message = true
    · rcases ih with ⟨ih1, ih3, ih4⟩
      cases ht : gatherStatuses pkg t with
      | error e =>
        refine ⟨⟨?_, ?_⟩, ?_, ?_⟩
        · intro _
          rcases ih1.mp ⟨e, ht⟩ with ⟨d0, hd0, hbad⟩
          exact ⟨d0, List.mem_cons_of_mem d hd0, hbad⟩
        · intro _
          exact ⟨e, by simp [gatherStatuses, hq, ht, Except.map]⟩
        · intro l hl
          simp [gatherStatuses, hq, ht, Except.map] at hl
        · intro e2 he2
          simp [gatherStatuses, hq, ht, Except.map] at he2
          exact he2 ▸ ih4 e ht
      | ok l =>
        refine ⟨⟨?_, ?_⟩, ?_, ?_⟩
        · rintro ⟨e, he⟩
          simp [gatherStatuses, hq, ht, Except.map] at he
        · rintro ⟨d0, hd0, hbad⟩
          rcases List.mem_cons.mp hd0 with h1 | h2
          · subst h1; rw [hq] at hbad; cases hbad
          · rcases ih1.mpr ⟨d0, h2, hbad⟩ with ⟨e, he⟩
            rw [he] at ht; cases ht
        · intro l2 hl2
          simp [gatherStatuses, hq, ht, Except.map] at hl2
          subst hl2
          simp [List.map, ih3 l ht, mkStatus, claimStatusOf]
        · intro e he
          simp [gatherStatuses, hq, ht, Except.map] at he
    · rw [Bool.not_eq_true] at hq
      refine ⟨⟨?_, ?_⟩, ?_, ?_⟩
      · intro _
        exact ⟨d, List.mem_cons_self d t, hq⟩
      · intro _
        exact ⟨Err.badStatusMessage d.message, by simp [gatherStatuses, hq]⟩
      · intro l hl
        simp [gatherStatuses, hq] at hl
      · intro e he
        simp [gatherStatuses, hq] at he
        exact ⟨d.message, he.symm⟩

/-- C5: the Collector fails with a bad-status-message (BadSourceForm)
error iff some status declaration's message is not a double-quoted
string literal; on success, each gathered status has the mangled name
`cName (keyword-prefix ++ unquoted message)` and the list preserves
source declaration order across files. -/
theorem collector_status_gathering (pkg : String) (files : Files) :
    ((∃ e, gatherAllStatuses pkg files = Except.error e) ↔
      (∃ d ∈ statusDecls files, quotedOk d.message = false))
    ∧ (∀ l, gatherAllStatuses pkg files = Except.ok l →
        l = (statusDecls files).map (claimStatusOf pkg))
    ∧ (∀ e, gatherAllStatuses pkg files = Except.error e →
        ∃ m, e = Err.badStatusMessage m) :=
  gatherStatuses_spec pkg (statusDecls files)

/-- Witness for C5 on a two-file package with one status and one error
declaration. -/
theorem collector_status_gathering_witness :
    (gatherAllStatuses "foo"
        [[TopLevel.statusD ⟨Keyword.status, "\"short read\"", true⟩],
         [TopLevel.statusD ⟨Keyword.error, "\"bad magic\"", false⟩]]
      = Except.ok
          [⟨"puffs_foo_status_short_read", "short read", false⟩,
           ⟨"puffs_foo_error_bad_magic", "bad magic", true⟩])
    ∧ ([⟨"puffs_foo_status_short_read", "short read", false⟩,
        ⟨"puffs_foo_error_bad_magic", "bad magic", true⟩] : List Status)
      = (statusDecls
          [[TopLevel.statusD ⟨Keyword.status, "\"short read\"", true⟩],
           [TopLevel.statusD ⟨Keyword.error, "\"bad magic\"", false⟩]]).map
          (claimStatusOf "foo") :=
  ⟨rfl,
   (collector_status_gathering "foo"
      [[TopLevel.statusD ⟨Keyword.status, "\"short read\"", true⟩],
       [TopLevel.statusD ⟨Keyword.error, "\"bad magic\"", false⟩]]).2.1
     _ rfl⟩

/-! ### C9: determinism -/

/-- C9: the backend is deterministic: two runs of `generate` on the same
package name, files, collaborator sort and base preludes produce
byte-identical pre-formatter output, and the name mangler `cName` is a
pure function returning the same C identifier for the same input on
every call.  (The model is purely functional: no hidden state exists, so
determinism is definitional.) -/
theorem backend_deterministic :
    (∀ (pkg : String) (files : Files)
       (topoSort : List StructD → Option (List StructD)) (bh bi : String),
       generate pkg files topoSort bh bi = generate pkg files topoSort bh bi)
    ∧ ∀ (pkg name : String), cName pkg name = cName pkg name :=
  ⟨fun _ _ _ _ _ => rfl, fun _ _ => rfl⟩

/-! ### C4: struct layouts and prototypes in header versus implementation -/

theorem exMapM_ok_mem {a b : Type} (f : a → Except Err b) :
    ∀ (l : List a) (res : List b), exMapM f l = Except.ok res →
      ∀ x ∈ l, ∀ y, f x = Except.ok y → y ∈ res := by
  intro l
  induction l with
  | nil => intro res _ x hx; cases hx
  | cons a t ih =>
    intro res h x hx y hy
    cases hfa : f a with
    | error e => simp [exMapM, hfa, bind, Except.bind] at h
    | ok fa =>
      cases hrec : exMapM f t with
      | error e2 => simp [exMapM, hfa, hrec, bind, Except.bind] at h
      | ok r2 =>
        simp [exMapM, hfa, hrec, bind, Except.bind] at h
        subst h
        rcases List.mem_cons.mp hx with h1 | h2
        · subst h1
          rw [hfa] at hy
          cases hy
          exact List.mem_cons_self _ _
        · exact List.mem_cons_of_mem _ (ih r2 hrec x h2 y hy)

/-- C4 (amended): the header section contains the struct layout of
every struct of the package, private structs included — `genHeader`
iterates `writeStruct` over the whole (topologically sorted) struct
list with no visibility filter; constructor/destructor prototypes are
the visibility-filtered parts: the header carries them for public
structs only, and the implementation section carries them for private
structs. -/
theorem header_has_all_layouts_and_filtered_prototypes
    (pkg baseHdr : String) (userList : List Status)
    (structList : List StructD) (files : Files) (h : String)
    (hg : genHeader pkg baseHdr userList structList files = Except.ok h) :
    (∀ st ∈ structList, ∀ lay, writeStruct pkg st = Except.ok lay → StrIn lay h)
    ∧ (∀ st ∈ structList, st.public = true → StrIn (writeCtorPrototype pkg st) h)
    ∧ ∀ (baseImplStr : String) (statusMap : List (String × Status)) (impl : String),
        genImpl pkg baseImplStr userList structList files statusMap = Except.ok impl →
        ∀ st ∈ structList, st.public = false →
          StrIn (writeCtorPrototype pkg st) impl := by
  cases hS : exMapM (writeStruct pkg) structList with
  | error e => simp [genHeader, hS, bind, Except.bind] at hg
  | ok structTexts =>
  cases hP : exMapM (writeFuncPrototype pkg) (funcDecls (some true) files) with
  | error e => simp [genHeader, hS, hP, bind, Except.bind] at hg
  | ok protoTexts =>
  simp only [genHeader, hS, hP, bind, Except.bind, pure, Except.pure] at hg
  refine ⟨?_, ?_, ?_⟩
  · intro st hst lay hlay
    have hmem : StrIn lay (strConcat structTexts) :=
      strIn_strConcat_of_mem lay structTexts
        (exMapM_ok_mem (writeStruct pkg) structList structTexts hS st hst lay hlay)
    injection hg with hh
    rw [← hh]
    iterate 8 apply strIn_append_left
    exact strIn_append_right _ _ _ hmem
  · intro st hst hpub
    have hmem : StrIn (writeCtorPrototype pkg st)
        (strConcat ((structList.filter (fun n => n.public)).map
          (writeCtorPrototype pkg))) :=
      strIn_strConcat_of_mem _ _
        (List.mem_map_of_mem _ (List.mem_filter.mpr ⟨hst, by simp [hpub]⟩))
    injection hg with hh
    rw [← hh]
    iterate 6 apply strIn_append_left
    exact strIn_append_right _ _ _ hmem
  · intro baseImplStr statusMap impl hgi st hst hpri
    cases hQ : exMapM (writeFuncPrototype pkg) (funcDecls (some false) files) with
    | error e => simp [genImpl, hQ, bind, Except.bind] at hgi
    | ok priProtos =>
    cases hI : exMapM (writeFuncImpl { pkg := pkg, statusMap := statusMap })
        (funcDecls none files) with
    | error e => simp [genImpl, hQ, hI, bind, Except.bind] at hgi
    | ok implTexts =>
    simp only [genImpl, hQ, hI, bind, Except.bind, pure, Except.pure] at hgi
    have hmem : StrIn (writeCtorPrototype pkg st)
        (strConcat ((structList.filter (fun n => !n.public)).map
          (writeCtorPrototype pkg))) :=
      strIn_strConcat_of_mem _ _
        (List.mem_map_of_mem _ (List.mem_filter.mpr ⟨hst, by simp [hpri]⟩))
    injection hgi with hh2
    rw [← hh2]
    iterate 7 apply strIn_append_left
    exact strIn_append_right _ _ _ hmem

def secretStruct : StructD :=
  { name := "secret", fields := [], public := false, suspendible := true }

def c4Files : Files := [[TopLevel.structD secretStruct]]

/-- The header `genHeader` emits for the one-private-struct package. -/
def c4HeaderOut : String :=
  "#ifndef PUFFS_FOO_H\n#define PUFFS_FOO_H\n\n// Code generated by puffs-gen-c. DO NOT EDIT.\n\n\n#ifdef __cplusplus\nextern \"C\" \x7b\n#endif\n\n// ---------------- Status Codes\n\n// Status codes are non-positive integers.\n//\n// The least significant bit indicates a non-recoverable status code: an error.\ntypedef enum \x7b\npuffs_foo_status_ok = 0,\npuffs_foo_error_bad_version = -2+1,\npuffs_foo_error_bad_receiver = -4+1,\npuffs_foo_error_bad_argument = -6+1,\npuffs_foo_error_constructor_not_called = -8+1,\npuffs_foo_error_unexpected_eof = -10+1,\npuffs_foo_status_short_read = -12,\npuffs_foo_status_short_write = -14,\npuffs_foo_error_closed_for_writes = -16+1,\n\x7d puffs_foo_status;\n\nbool puffs_foo_status_is_error(puffs_foo_status s);\n\nconst char* puffs_foo_status_string(puffs_foo_status s);\n\n// ---------------- Structs\n\ntypedef struct \x7b\n// Do not access the private_impl's fields directly. There is no API/ABI\n// compatibility or safety guarantee if you do so. Instead, use the\n// puffs_foo_secret_etc functions.\n//\n// In C++, these fields would be \"private\", but C does not support that.\n//\n// It is a struct, not a struct*, so that it can be stack allocated.\nstruct \x7b\npuffs_foo_status status;\nuint32_t magic;\n\x7d private_impl;\n \x7d puffs_foo_secret;\n\n// ---------------- Public Constructor and Destructor Prototypes\n\n// ---------------- Public Function Prototypes\n\n\n#ifdef __cplusplus\n\x7d  // extern \"C\"\n#endif\n\n#endif  // PUFFS_FOO_H\n\n"

/-- The layout text `writeStruct` emits for `secret`. -/
def secretLayout : String :=
  "typedef struct \x7b\n// Do not access the private_impl's fields directly. There is no API/ABI\n// compatibility or safety guarantee if you do so. Instead, use the\n// puffs_foo_secret_etc functions.\n//\n// In C++, these fields would be \"private\", but C does not support that.\n//\n// It is a struct, not a struct*, so that it can be stack allocated.\nstruct \x7b\npuffs_foo_status status;\nuint32_t magic;\n\x7d private_impl;\n \x7d puffs_foo_secret;\n\n"

/-- C4 counterexample: for a package with one private struct `secret`,
the header section does contain the private struct's layout (refuting
"the header contains the struct layout … of no private struct"), while
the public-constructor-prototype section of this header is empty — the
visibility filter applies to the prototypes, not the layouts. -/
theorem header_contains_private_struct_layout :
    genHeader "foo" "" [] [secretStruct] c4Files = Except.ok c4HeaderOut
    ∧ secretStruct.public = false
    ∧ StrIn secretLayout c4HeaderOut
    ∧ (([secretStruct].filter (fun n => n.public)).map (writeCtorPrototype "foo"))
      = [] := by
  refine ⟨rfl, rfl, ?_, rfl⟩
  have hg : genHeader "foo" "" [] [secretStruct] c4Files = Except.ok c4HeaderOut :=
    rfl
  have hS : exMapM (writeStruct "foo") [secretStruct] = Except.ok [secretLayout] :=
    rfl
  have hP : exMapM (writeFuncPrototype "foo") (funcDecls (some true) c4Files)
      = Except.ok [] := rfl
  simp only [genHeader, hS, hP, bind, Except.bind, pure, Except.pure] at hg
  have hmem : StrIn secretLayout (strConcat [secretLayout]) :=
    strIn_append_left _ _ _ (strIn_refl secretLayout)
  injection hg with hh
  rw [← hh]
  iterate 8 apply strIn_append_left
  exact strIn_append_right _ _ _ hmem

/-- Witness for the amended C4 theorem on the one-private-struct
package. -/
theorem header_has_all_layouts_witness :
    writeStruct "foo" secretStruct = Except.ok secretLayout
    ∧ StrIn secretLayout c4HeaderOut :=
  ⟨rfl,
   (header_has_all_layouts_and_filtered_prototypes "foo" "" [] [secretStruct]
       c4Files c4HeaderOut rfl).1 secretStruct (List.mem_singleton.mpr rfl)
     secretLayout rfl⟩

/-! ### Shared machinery for the function-implementation claims -/

theorem strIn_rot3 (a b c d : String) : StrIn ((b ++ c) ++ d) (((a ++ b) ++ c) ++ d) := by
  refine ⟨a.data, [], ?_⟩
  simp [String.data_append, List.append_assoc]

theorem writeFuncImplCore_eq (ctx : Ctx) (f : FuncD) (sig vars stmts : String)
    (pfOut : PF)
    (hsig : writeFuncSignature ctx.pkg f = Except.ok sig)
    (hvars : writeVars ctx.pkg f.body 0 = Except.ok vars)
    (hstmts : writeStmtList ctx f.body 0 (initPF f) = Except.ok (stmts, pfOut)) :
    writeFuncImplCore ctx f = Except.ok (sig ++ "\x7b\n"
      ++ funcImplPrologue ctx.pkg f
      ++ (if f.public then writeFuncImplArgChecks ctx.pkg f else "") ++ "\n"
      ++ vars ++ "\n" ++ stmts ++ "\n"
      ++ funcEpilogue pfOut ++ "\x7d\n\n", pfOut) := by
  simp [writeFuncImplCore, hsig, hvars, hstmts, bind, Except.bind]

theorem writeFuncImplCore_inv (ctx : Ctx) (f : FuncD) (s : String) (pfOut : PF)
    (h : writeFuncImplCore ctx f = Except.ok (s, pfOut)) :
    ∃ sig vars stmts,
      writeFuncSignature ctx.pkg f = Except.ok sig
      ∧ writeVars ctx.pkg f.body 0 = Except.ok vars
      ∧ writeStmtList ctx f.body 0 (initPF f) = Except.ok (stmts, pfOut)
      ∧ s = sig ++ "\x7b\n" ++ funcImplPrologue ctx.pkg f
          ++ (if f.public then writeFuncImplArgChecks ctx.pkg f else "") ++ "\n"
          ++ vars ++ "\n" ++ stmts ++ "\n"
          ++ funcEpilogue pfOut ++ "\x7d\n\n" := by
  cases hsig : writeFuncSignature ctx.pkg f with
  | error e => simp [writeFuncImplCore, hsig, bind, Except.bind] at h
  | ok sig =>
  cases hvars : writeVars ctx.pkg f.body 0 with
  | error e => simp [writeFuncImplCore, hsig, hvars, bind, Except.bind] at h
  | ok vars =>
  cases hstmts : writeStmtList ctx f.body 0 (initPF f) with
  | error e => simp [writeFuncImplCore, hsig, hvars, hstmts, bind, Except.bind] at h
  | ok sp =>
    obtain ⟨stmts, pf2⟩ := sp
    simp only [writeFuncImplCore, hsig, hvars, hstmts, bind, Except.bind,
      Except.ok.injEq, Prod.mk.injEq] at h
    obtain ⟨h1, h2⟩ := h
    subst h2
    exact ⟨sig, vars, stmts, rfl, rfl, rfl, h1.symm⟩

theorem writeFuncImpl_eq_of_core (ctx : Ctx) (f : FuncD) (s : String) (pfOut : PF)
    (h : writeFuncImplCore ctx f = Except.ok (s, pfOut)) :
    writeFuncImpl ctx f
      = if pfOut.tempW ≠ pfOut.tempR then Except.error Err.tempOutOfSync
        else Except.ok s := by
  simp [writeFuncImpl, h, bind, Except.bind]

theorem writeFuncImpl_ok_inv (ctx : Ctx) (f : FuncD) (out : String)
    (h : writeFuncImpl ctx f = Except.ok out) :
    ∃ pfOut, writeFuncImplCore ctx f = Except.ok (out, pfOut)
      ∧ pfOut.tempW = pfOut.tempR := by
  cases hc : writeFuncImplCore ctx f with
  | error e => simp [writeFuncImpl, hc, bind, Except.bind] at h
  | ok sp =>
    obtain ⟨s, pf2⟩ := sp
    rw [writeFuncImpl_eq_of_core ctx f s pf2 hc] at h
    by_cases hw : pf2.tempW = pf2.tempR
    · simp [hw] at h
      subst h
      exact ⟨pf2, rfl, hw⟩
    · simp [hw] at h

/-! ### C10: status latch and magic check in public non-suspendible methods -/

/-- C10: for every public non-suspendible function with a receiver whose
emission succeeds, the emitted body contains, after the null receiver
check, the latched-error early return
`if (self->private_impl.status & 1) { return; }` and the magic check
that writes `constructor_not_called` into `self->private_impl.status`
and returns — the status-latch and magic checks apply to non-suspendible
public methods too, reading and writing the receiver's status field even
though the function returns void. -/
theorem public_nonsusp_method_prologue (ctx : Ctx) (f : FuncD) (r : String)
    (out : String)
    (hpub : f.public = true) (hsusp : f.suspendible = false)
    (hrecv : f.receiver = some r)
    (h : writeFuncImpl ctx f = Except.ok out) :
    StrIn "if (self->private_impl.status & 1) \x7b return; \x7d" out
    ∧ StrIn ("if (self->private_impl.magic != PUFFS_MAGIC) \x7bself->private_impl.status = puffs_"
        ++ ctx.pkg ++ "_error_constructor_not_called; return; \x7d\n") out := by
  obtain ⟨recv, fname, inputs, body, pub, susp⟩ := f
  dsimp only at hpub hsusp hrecv
  subst hpub; subst hsusp; subst hrecv
  obtain ⟨pfOut, hcore, _⟩ := writeFuncImpl_ok_inv ctx _ out h
  obtain ⟨sig, vars, stmts, _, _, _, hshape⟩ :=
    writeFuncImplCore_inv ctx _ out pfOut hcore
  subst hshape
  have hpro : funcImplPrologue ctx.pkg
      ⟨some r, fname, inputs, body, true, false⟩
      = ("if (!self) \x7b\n" ++ "return;" ++ "\x7d\n")
        ++ ((("if (self->private_impl.status & 1) \x7b return; \x7d"
            ++ "if (self->private_impl.magic != PUFFS_MAGIC) \x7bself->private_impl.status = puffs_")
            ++ ctx.pkg) ++ "_error_constructor_not_called; return; \x7d\n") := rfl
  constructor
  · iterate 8 apply strIn_append_left
    apply strIn_append_right
    rw [hpro]
    apply strIn_append_right
    iterate 2 apply strIn_append_left
    exact strIn_append_left _ _ _ (strIn_refl _)
  · iterate 8 apply strIn_append_left
    apply strIn_append_right
    rw [hpro]
    apply strIn_append_right
    exact strIn_rot3 _ _ _ _

def cfFoo : Ctx := { pkg := "foo", statusMap := [] }

/-- A concrete public non-suspendible method used as the C10 witness. -/
def c10Func : FuncD :=
  { receiver := some "bar", name := "reset", inputs := [],
    body := StmtList.nil, public := true, suspendible := false }

/-- The emitted implementation of `c10Func`. -/
def c10Out : String :=
  "void puffs_foo_bar_reset(puffs_foo_bar *self)\x7b\nif (!self) \x7b\nreturn;\x7d\nif (self->private_impl.status & 1) \x7b return; \x7dif (self->private_impl.magic != PUFFS_MAGIC) \x7bself->private_impl.status = puffs_foo_error_constructor_not_called; return; \x7d\n\n\n\n\x7d\n\n"

/-- Witness for C10 on a concrete method `bar.reset`. -/
theorem public_nonsusp_method_prologue_witness :
    StrIn "if (self->private_impl.status & 1) \x7b return; \x7d" c10Out
    ∧ StrIn ("if (self->private_impl.magic != PUFFS_MAGIC) \x7bself->private_impl.status = puffs_"
        ++ cfFoo.pkg ++ "_error_constructor_not_called; return; \x7d\n") c10Out :=
  public_nonsusp_method_prologue cfFoo c10Func "bar" c10Out rfl rfl rfl rfl

/-! ### C8: temporary-cursor consistency -/

set_option maxHeartbeats 2000000 in
/-- C8: for every function whose emission completes without error the
temporary write cursor equals the read cursor at the end of
`writeFuncImpl` (and when they differ, emission fails with the
internal-invariant error); moreover a temporary is never consumed before
it is produced: the replacement branch of `writeExpr` errors whenever
`tempR ≥ tempW`. -/
theorem temp_cursors_balance :
    (∀ (ctx : Ctx) (f : FuncD) (s : String) (pfOut : PF),
       writeFuncImplCore ctx f = Except.ok (s, pfOut) →
       (writeFuncImpl ctx f = Except.ok s ↔ pfOut.tempW = pfOut.tempR))
    ∧ (∀ (ctx : Ctx) (f : FuncD) (s : String) (pfOut : PF),
       writeFuncImplCore ctx f = Except.ok (s, pfOut) →
       pfOut.tempW ≠ pfOut.tempR →
       writeFuncImpl ctx f = Except.error Err.tempOutOfSync)
    ∧ (∀ (ctx : Ctx) (n : Expr) (pp : Bool) (depth : Nat) (pf : PF),
       n.callSuspendible = true → depth ≤ MaxExprDepth →
       pf.tempR ≥ pf.tempW →
       writeExpr ctx n true pp depth pf = Except.error Err.tempOutOfSync) := by
  refine ⟨?_, ?_, ?_⟩
  · intro ctx f s pfOut hcore
    rw [writeFuncImpl_eq_of_core ctx f s pfOut hcore]
    by_cases hw : pfOut.tempW = pfOut.tempR
    · simp [hw]
    · simp [hw]
  · intro ctx f s pfOut hcore hne
    rw [writeFuncImpl_eq_of_core ctx f s pfOut hcore]
    simp [hne]
  · intro ctx n pp depth pf hcall hdepth hge
    rw [writeExpr]
    rw [if_neg (by omega)]
    simp only [hcall, Bool.and_true, if_true, ge_iff_le, hge, ite_true]

/-- The `in.src.read_u8?()` call expression. -/
def readCall : Expr :=
  Expr.call true true (TypeExpr.base TKey.u8 none)
    (Expr.dot (Expr.dot (Expr.id IdKey.kIn) (IdKey.kPlain "src")) IdKey.kReadU8)
    ExprList.nil

/-- Witness for C8: the consuming branch of `writeExpr` at a concrete
suspendible call with `tempR = tempW = 0` errors, and a concrete
balanced function round-trips through the final check. -/
theorem temp_cursors_balance_witness :
    writeExpr cfFoo readCall true false 0
        ⟨0, 0, false, false, none, []⟩ = Except.error Err.tempOutOfSync
    ∧ readCall.callSuspendible = true :=
  ⟨temp_cursors_balance.2.2 cfFoo readCall false 0
      ⟨0, 0, false, false, none, []⟩ (by decide) (by decide) (by decide),
   by decide⟩

/-! ### C1: lowering of `x = in.src.read_u8?()` -/

/-- The body `var x u8; x = in.src.read_u8?()` of the spec's scenario. -/
def c1Body : StmtList :=
  StmtList.cons (Stmt.varS "x" (TypeExpr.base TKey.u8 none) none)
    (StmtList.cons (Stmt.assign OpKey.eq (Expr.id (IdKey.kPlain "x")) readCall)
      StmtList.nil)

/-- The statement list emitted for `c1Body` when the function is public
and suspendible (the guard exit is `goto cleanup0;`). -/
def c1StmtsGoto : String :=
  "v_x = 0;\nif (a_src->ri >= a_src->wi) \x7b status = a_src->closed ? puffs_foo_error_unexpected_eof : puffs_foo_status_short_read;goto cleanup0;\x7d\nuint8_t t_0 = a_src->ptr[a_src->ri++];\nv_x = t_0;\n"

/-- The statement list emitted for `c1Body` in the other shapes (the
guard exit is `return status;`). -/
def c1StmtsRet : String :=
  "v_x = 0;\nif (a_src->ri >= a_src->wi) \x7b status = a_src->closed ? puffs_foo_error_unexpected_eof : puffs_foo_status_short_read;return status;\x7d\nuint8_t t_0 = a_src->ptr[a_src->ri++];\nv_x = t_0;\n"

/-- C1 (amended): for every function of package `foo` whose body is
`var x u8; x = in.src.read_u8?()` — so the read is the function's first
suspendible call — and whose emission succeeds, the implementation
hoists the call before the assignment: it contains the short-read guard
followed by the exit (`goto cleanup0;` when the function is public and
suspendible, `return status;` otherwise), then the temporary assignment
`t_0 = a_src->ptr[a_src->ri++];`, and the enclosing assignment then
reads the temporary, emitting `v_x = t_0;`.  The temporary is `t_0`
because the call is the first suspendible call; a later call in the
same function uses the then-current temporary counter instead (see the
counterexample). -/
theorem read_u8_call_is_hoisted (f : FuncD) (out : String)
    (hbody : f.body = c1Body)
    (h : writeFuncImpl cfFoo f = Except.ok out) :
    StrIn ("if (a_src->ri >= a_src->wi) \x7b status = a_src->closed ? puffs_foo_error_unexpected_eof : puffs_foo_status_short_read;"
        ++ (if f.public && f.suspendible then "goto cleanup0;" else "return status;")
        ++ "\x7d\n" ++ "uint8_t t_0 = a_src->ptr[a_src->ri++];\n") out
    ∧ StrIn "v_x = t_0;\n" out := by
  obtain ⟨recv, fname, inputs, body, pub, susp⟩ := f
  dsimp only at hbody ⊢
  subst hbody
  obtain ⟨pfOut, hcore, _⟩ := writeFuncImpl_ok_inv cfFoo _ out h
  obtain ⟨sig, vars, stmts, _, _, hstmts, hshape⟩ :=
    writeFuncImplCore_inv cfFoo _ out pfOut hcore
  subst hshape
  dsimp only at hstmts
  cases pub <;> cases susp
  · have hs : writeStmtList cfFoo c1Body 0
        (initPF ⟨recv, fname, inputs, c1Body, false, false⟩)
        = Except.ok (c1StmtsRet,
            ⟨1, 1, false, false, recv, []⟩) := by with_unfolding_all rfl
    rw [hs] at hstmts
    simp only [Except.ok.injEq, Prod.mk.injEq] at hstmts
    obtain ⟨hstm, -⟩ := hstmts
    subst hstm
    refine ⟨?_, ?_⟩
    · iterate 3 apply strIn_append_left
      apply strIn_append_right
      decide
    · iterate 3 apply strIn_append_left
      apply strIn_append_right
      decide
  · have hs : writeStmtList cfFoo c1Body 0
        (initPF ⟨recv, fname, inputs, c1Body, false, true⟩)
        = Except.ok (c1StmtsRet,
            ⟨1, 1, false, true, recv, []⟩) := by with_unfolding_all rfl
    rw [hs] at hstmts
    simp only [Except.ok.injEq, Prod.mk.injEq] at hstmts
    obtain ⟨hstm, -⟩ := hstmts
    subst hstm
    refine ⟨?_, ?_⟩
    · iterate 3 apply strIn_append_left
      apply strIn_append_right
      decide
    · iterate 3 apply strIn_append_left
      apply strIn_append_right
      decide
  · have hs : writeStmtList cfFoo c1Body 0
        (initPF ⟨recv, fname, inputs, c1Body, true, false⟩)
        = Except.ok (c1StmtsRet,
            ⟨1, 1, true, false, recv, []⟩) := by with_unfolding_all rfl
    rw [hs] at hstmts
    simp only [Except.ok.injEq, Prod.mk.injEq] at hstmts
    obtain ⟨hstm, -⟩ := hstmts
    subst hstm
    refine ⟨?_, ?_⟩
    · iterate 3 apply strIn_append_left
      apply strIn_append_right
      decide
    · iterate 3 apply strIn_append_left
      apply strIn_append_right
      decide
  · have hs : writeStmtList cfFoo c1Body 0
        (initPF ⟨recv, fname, inputs, c1Body, true, true⟩)
        = Except.ok (c1StmtsGoto,
            ⟨1, 1, true, true, recv, []⟩) := by with_unfolding_all rfl
    rw [hs] at hstmts
    simp only [Except.ok.injEq, Prod.mk.injEq] at hstmts
    obtain ⟨hstm, -⟩ := hstmts
    subst hstm
    refine ⟨?_, ?_⟩
    · iterate 3 apply strIn_append_left
      apply strIn_append_right
      decide
    · iterate 3 apply strIn_append_left
      apply strIn_append_right
      decide

/-- A concrete public suspendible method `bar.decode` with body
`c1Body`, used as the C1 witness. -/
def c1Func : FuncD :=
  { receiver := some "bar", name := "decode", inputs := [], body := c1Body,
    public := true, suspendible := true }

/-- The emitted implementation of `c1Func`. -/
def c1Out : String :=
  "puffs_foo_status puffs_foo_bar_decode(puffs_foo_bar *self)\x7b\nif (!self) \x7b\nreturn puffs_foo_error_bad_receiver;\x7d\npuffs_foo_status status = self->private_impl.status;\nif (status & 1) \x7b return status; \x7dif (self->private_impl.magic != PUFFS_MAGIC) \x7bstatus = puffs_foo_error_constructor_not_called; goto cleanup0; \x7d\n\nuint8_t v_x;\n\nv_x = 0;\nif (a_src->ri >= a_src->wi) \x7b status = a_src->closed ? puffs_foo_error_unexpected_eof : puffs_foo_status_short_read;goto cleanup0;\x7d\nuint8_t t_0 = a_src->ptr[a_src->ri++];\nv_x = t_0;\n\ncleanup0: self->private_impl.status = status;\nreturn status;\n\x7d\n\n"

/-- Witness for C1 on the concrete method `bar.decode`. -/
theorem read_u8_call_is_hoisted_witness :
    StrIn ("if (a_src->ri >= a_src->wi) \x7b status = a_src->closed ? puffs_foo_error_unexpected_eof : puffs_foo_status_short_read;"
        ++ (if c1Func.public && c1Func.suspendible then "goto cleanup0;" else "return status;")
        ++ "\x7d\n" ++ "uint8_t t_0 = a_src->ptr[a_src->ri++];\n") c1Out
    ∧ StrIn "v_x = t_0;\n" c1Out :=
  read_u8_call_is_hoisted c1Func c1Out rfl rfl

/-- Membership of a statement in a statement list. -/
def StmtList.containsStmt (s : Stmt) : StmtList → Bool
  | .nil => false
  | .cons o rest => (o = s) || StmtList.containsStmt s rest

/-- A body with two reads: `var y u8; var x u8; y = in.src.read_u8?();
x = in.src.read_u8?()`.  The `x = in.src.read_u8?()` statement is not
the first suspendible call here. -/
def c1Body2 : StmtList :=
  StmtList.cons (Stmt.varS "y" (TypeExpr.base TKey.u8 none) none)
    (StmtList.cons (Stmt.varS "x" (TypeExpr.base TKey.u8 none) none)
      (StmtList.cons (Stmt.assign OpKey.eq (Expr.id (IdKey.kPlain "y")) readCall)
        (StmtList.cons (Stmt.assign OpKey.eq (Expr.id (IdKey.kPlain "x")) readCall)
          StmtList.nil)))

/-- A private non-suspendible function with body `c1Body2`. -/
def c1Func2 : FuncD :=
  { receiver := none, name := "decode", inputs := [], body := c1Body2,
    public := false, suspendible := false }

/-- The emitted implementation of `c1Func2`. -/
def c1Out2 : String :=
  "void puffs_foo_decode()\x7b\n\nuint8_t v_y;\nuint8_t v_x;\n\nv_y = 0;\nv_x = 0;\nif (a_src->ri >= a_src->wi) \x7b status = a_src->closed ? puffs_foo_error_unexpected_eof : puffs_foo_status_short_read;return status;\x7d\nuint8_t t_0 = a_src->ptr[a_src->ri++];\nv_y = t_0;\nif (a_src->ri >= a_src->wi) \x7b status = a_src->closed ? puffs_foo_error_unexpected_eof : puffs_foo_status_short_read;return status;\x7d\nuint8_t t_1 = a_src->ptr[a_src->ri++];\nv_x = t_1;\n\n\x7d\n\n"

/-- Counterexample to C1 as stated: a body that contains the statement
`x = in.src.read_u8?()` but in which that read is not the function's
first suspendible call.  Emission succeeds, the hoisted temporary for
the `x` assignment is `t_1`, and the output nowhere contains
`v_x = t_0;`. -/
theorem read_u8_temp_not_always_t0 :
    StmtList.containsStmt
        (Stmt.assign OpKey.eq (Expr.id (IdKey.kPlain "x")) readCall)
        c1Func2.body = true
    ∧ writeFuncImpl cfFoo c1Func2 = Except.ok c1Out2
    ∧ StrIn "v_x = t_1;\n" c1Out2
    ∧ ¬ StrIn "v_x = t_0;\n" c1Out2 :=
  ⟨by decide, rfl, by decide, by decide⟩

/-! ### C6: the argument-validation prologue -/

theorem strConcat_cons_intersperse (sep : String) :
    ∀ (rest : List String) (c : String),
      c ++ strConcat (rest.map (fun x => sep ++ x))
        = strConcat (List.intersperse sep (c :: rest))
  | [], c => rfl
  | x :: xs, c => by
    show c ++ ((sep ++ x) ++ strConcat (List.map (fun y => sep ++ y) xs))
      = c ++ (sep ++ strConcat (List.intersperse sep (x :: xs)))
    rw [← strConcat_cons_intersperse sep xs x]
    rw [String.append_assoc]

/-- The spec's phrasing of a refinement-bound check: a comparison is
emitted for a bound exactly when the bound is not the numeric type's
natural bound. -/
def boundCheck (name op : String) (b natural : Option Int) : List String :=
  match b with
  | none => []
  | some v => if natural = some v then [] else [aPfx ++ name ++ op ++ toString v]

theorem boundToCheck_cancelBound (name op : String) (b nb : Option Int) :
    boundToCheck name op (cancelBound b nb) = boundCheck name op b nb := by
  rcases b with _ | v
  · rfl
  · rcases nb with _ | w
    · rfl
    · by_cases h : v = w
      · subst h
        simp [cancelBound, boundCheck, boundToCheck]
      · simp [cancelBound, boundCheck, boundToCheck, h, Ne.symm h]

/-- C6 (amended): the argument-validation prologue emits nothing when
there are no checks; otherwise it emits one combined `if` whose
condition ORs together the per-input checks, where a pointer-typed
input contributes a non-null check and a bounds-refined numeric input
contributes a comparison per refinement bound not equal to the
underlying type's natural bound; on failure, a suspendible function
sets `status` to `bad_argument` and jumps to `cleanup0`, while in the
non-suspendible shape the function does not return `bad_argument` (its
return type is void): with a receiver it stores `bad_argument` into
`self->private_impl.status` and returns, and with no receiver it
returns with the failure dropped. -/
theorem arg_checks_combined_if :
    (∀ (pkg : String) (f : FuncD), f.inputs.flatMap argCheckOf = [] →
        writeFuncImplArgChecks pkg f = "")
    ∧ (∀ (pkg : String) (f : FuncD) (c : String) (rest : List String),
        f.inputs.flatMap argCheckOf = c :: rest →
        writeFuncImplArgChecks pkg f
          = "if (" ++ strConcat (List.intersperse " || " (c :: rest)) ++ ") \x7b"
            ++ (if f.suspendible then
                  "status = puffs_" ++ pkg ++ "_error_bad_argument; goto cleanup0;"
                else if f.receiver.isSome then
                  "self->private_impl.status = puffs_" ++ pkg
                    ++ "_error_bad_argument; return;"
                else "return;")
            ++ "\x7d\n")
    ∧ (∀ (o : FieldD), o.typ.isPtr = true → argCheckOf o = ["!" ++ aPfx ++ o.name])
    ∧ (∀ (name : String) (dv : Option Int) (key : TKey) (lo hi : Option Int),
        argCheckOf ⟨name, TypeExpr.base key (some (lo, hi)), dv⟩
          = boundCheck name " < " lo (numTypeBounds key).1
            ++ boundCheck name " > " hi (numTypeBounds key).2) := by
  refine ⟨?_, ?_, ?_, ?_⟩
  · intro pkg f h
    simp only [writeFuncImplArgChecks, h]
  · intro pkg f c rest h
    simp only [writeFuncImplArgChecks, h]
    rw [show ("if (" ++ c) ++ strConcat (List.map (fun x => " || " ++ x) rest)
        = "if (" ++ strConcat (List.intersperse " || " (c :: rest)) from by
      rw [String.append_assoc, strConcat_cons_intersperse]]
  · intro o h
    obtain ⟨name, typ, dv⟩ := o
    dsimp only at h
    cases typ with
    | base k b => simp [TypeExpr.isPtr] at h
    | ptr inner => rfl
    | array n inner => simp [TypeExpr.isPtr] at h
  · intro name dv key lo hi
    show boundToCheck name " < " (cancelBound lo (numTypeBounds key).1)
        ++ boundToCheck name " > " (cancelBound hi (numTypeBounds key).2)
      = _
    rw [boundToCheck_cancelBound, boundToCheck_cancelBound]

/-- A public non-suspendible method with a pointer-typed input, used
for the C6 witness and counterexample. -/
def c6Func : FuncD :=
  { receiver := some "bar", name := "set_ptr",
    inputs := [⟨"p", TypeExpr.ptr (TypeExpr.base TKey.u8 none), none⟩],
    body := StmtList.nil, public := true, suspendible := false }

/-- The emitted implementation of `c6Func`. -/
def c6Out : String :=
  "void puffs_foo_bar_set_ptr(puffs_foo_bar *self,uint8_t* a_p)\x7b\nif (!self) \x7b\nreturn;\x7d\nif (self->private_impl.status & 1) \x7b return; \x7dif (self->private_impl.magic != PUFFS_MAGIC) \x7bself->private_impl.status = puffs_foo_error_constructor_not_called; return; \x7d\nif (!a_p) \x7bself->private_impl.status = puffs_foo_error_bad_argument; return;\x7d\n\n\n\n\x7d\n\n"

/-- Witness for C6: the combined `if` of a concrete public
non-suspendible method with one pointer input, obtained from the
claim theorem, its hypotheses discharged by evaluation. -/
theorem arg_checks_combined_if_witness :
    writeFuncImplArgChecks "foo" c6Func
      = "if (" ++ strConcat (List.intersperse " || " ("!a_p" :: [])) ++ ") \x7b"
        ++ (if c6Func.suspendible then
              "status = puffs_foo_error_bad_argument; goto cleanup0;"
            else if c6Func.receiver.isSome then
              "self->private_impl.status = puffs_foo_error_bad_argument; return;"
            else "return;")
        ++ "\x7d\n"
    ∧ argCheckOf ⟨"p", TypeExpr.ptr (TypeExpr.base TKey.u8 none), none⟩
        = ["!" ++ aPfx ++ "p"]
    ∧ argCheckOf ⟨"x", TypeExpr.base TKey.u32 (some (some 10, some (2 ^ 32 - 1))), none⟩
        = boundCheck "x" " < " (some 10) (numTypeBounds TKey.u32).1
          ++ boundCheck "x" " > " (some (2 ^ 32 - 1)) (numTypeBounds TKey.u32).2 :=
  ⟨arg_checks_combined_if.2.1 "foo" c6Func "!a_p" [] rfl,
   arg_checks_combined_if.2.2.1 ⟨"p", TypeExpr.ptr (TypeExpr.base TKey.u8 none), none⟩ rfl,
   arg_checks_combined_if.2.2.2 "x" none TKey.u32 (some 10) (some (2 ^ 32 - 1))⟩

/-- Counterexample to C6 as stated: in the non-suspendible shape the
emitted code does not return `bad_argument` — the function returns
void, stores `bad_argument` into the receiver's status field and
returns.  The string `return puffs_foo_error_bad_argument` occurs
nowhere in the emitted implementation. -/
theorem arg_check_failure_is_not_returned :
    writeFuncImpl cfFoo c6Func = Except.ok c6Out
    ∧ StrIn "if (!a_p) \x7bself->private_impl.status = puffs_foo_error_bad_argument; return;\x7d\n" c6Out
    ∧ ¬ StrIn "return puffs_foo_error_bad_argument" c6Out :=
  ⟨rfl, by decide, by decide⟩


/-! ### C7: the temporary budget -/

theorem except_bind_ok {α β : Type} (a : α) (k : α → Except Err β) :
    Except.bind (Except.ok a) k = k a := rfl

/-- `writeCallSuspendibles` on the `in.src.read_u8?()` call: the guard
`g.perFunc.tempW > maxTemp` decides between the `tooManyTemporaries`
error and emitting with the next temporary. -/
theorem wcs_read_ok (ctx : Ctx) (d : Nat) (pf : PF) :
    writeCallSuspendibles ctx readCall d pf
      = if pf.tempW > maxTemp then Except.error Err.tooManyTemporaries
        else Except.bind
          (writeCTypeName ctx.pkg (TypeExpr.base TKey.u8 none) tPfx (toString pf.tempW))
          (fun tdecl => Except.ok (
            "if (a_src->ri >= a_src->wi) \x7b status = "
            ++ "a_src->closed ? puffs_" ++ ctx.pkg ++ "_error_unexpected_eof : puffs_"
            ++ ctx.pkg ++ "_status_short_read;"
            ++ suspExit { pf with tempW := pf.tempW + 1 }
            ++ "\x7d\n"
            ++ tdecl ++ " = a_src->ptr[a_src->ri++];\n",
            { pf with tempW := pf.tempW + 1 })) := by
  with_unfolding_all rfl

/-- The statement `x = in.src.read_u8?()`: allocates one temporary in
the hoisting phase and consumes it in the replacement phase. -/
def readAssign : Stmt := Stmt.assign OpKey.eq (Expr.id (IdKey.kPlain "x")) readCall

set_option maxHeartbeats 2000000 in
theorem readAssign_step (ctx : Ctx) (w : Nat) (pub susp : Bool)
    (recv : Option String) (jts : List (Nat × Nat)) :
    (w ≤ maxTemp → ∃ s, writeStatement ctx readAssign 0 ⟨w, w, pub, susp, recv, jts⟩
        = Except.ok (s, ⟨w + 1, w + 1, pub, susp, recv, jts⟩))
    ∧ (w > maxTemp → writeStatement ctx readAssign 0 ⟨w, w, pub, susp, recv, jts⟩
        = Except.error Err.tooManyTemporaries) := by
  have h1 : writeSuspendibles ctx (Expr.id (IdKey.kPlain "x")) (0 + 1)
      (⟨w, w, pub, susp, recv, jts⟩ : PF)
      = Except.ok ("", ⟨w, w, pub, susp, recv, jts⟩) := by with_unfolding_all rfl
  have h2 : writeSuspendibles ctx readCall (0 + 1) (⟨w, w, pub, susp, recv, jts⟩ : PF)
      = writeCallSuspendibles ctx readCall (0 + 1) ⟨w, w, pub, susp, recv, jts⟩ := by
    with_unfolding_all rfl
  have hch : writeStatement ctx readAssign 0 ⟨w, w, pub, susp, recv, jts⟩
      = Except.bind (writeSuspendibles ctx (Expr.id (IdKey.kPlain "x")) (0 + 1)
          (⟨w, w, pub, susp, recv, jts⟩ : PF)) (fun p1 =>
        Except.bind (writeSuspendibles ctx readCall (0 + 1) p1.2) (fun p2 =>
        Except.bind (writeExpr ctx (Expr.id (IdKey.kPlain "x")) true false (0 + 1) p2.2) (fun p3 =>
        Except.bind (writeExpr ctx readCall true false (0 + 1) p3.2) (fun p4 =>
        Except.ok (p1.1 ++ p2.1 ++ p3.1 ++ cOpName OpKey.eq ++ p4.1 ++ ";\n", p4.2))))) := by
    with_unfolding_all rfl
  constructor
  · intro h
    obtain ⟨td, h3⟩ : ∃ td, writeCTypeName ctx.pkg (TypeExpr.base TKey.u8 none) tPfx (toString w)
        = Except.ok td := ⟨_, by with_unfolding_all rfl⟩
    have h4 : writeExpr ctx (Expr.id (IdKey.kPlain "x")) true false (0 + 1)
        (⟨w + 1, w, pub, susp, recv, jts⟩ : PF)
        = Except.ok (vPfx ++ (IdKey.kPlain "x").str, ⟨w + 1, w, pub, susp, recv, jts⟩) := by
      with_unfolding_all rfl
    have h5 : writeExpr ctx readCall true false (0 + 1)
        (⟨w + 1, w, pub, susp, recv, jts⟩ : PF)
        = Except.ok (tPfx ++ toString w, ⟨w + 1, w + 1, pub, susp, recv, jts⟩) := by
      rw [writeExpr]
      rw [if_neg (by decide)]
      rw [if_pos (by decide : (true && readCall.callSuspendible) = true)]
      rw [if_neg (show ¬ (w ≥ w + 1) by omega)]
    rw [hch, h1, except_bind_ok]
    rw [h2, wcs_read_ok]
    rw [if_neg (show ¬ (w > maxTemp) by omega)]
    rw [h3, except_bind_ok, except_bind_ok]
    rw [h4, except_bind_ok]
    rw [h5, except_bind_ok]
    exact ⟨_, rfl⟩
  · intro h
    rw [hch, h1, except_bind_ok]
    rw [h2, wcs_read_ok]
    rw [if_pos h]
    rfl

/-- A body of `n` copies of `x = in.src.read_u8?()` — `n` distinct
suspendible calls. -/
def repReadAssign : Nat → StmtList
  | 0 => StmtList.nil
  | n + 1 => StmtList.cons readAssign (repReadAssign n)

theorem repReadAssign_length : ∀ n : Nat, StmtList.length (repReadAssign n) = n
  | 0 => rfl
  | n + 1 => by
    rw [show StmtList.length (repReadAssign (n + 1))
        = 1 + StmtList.length (repReadAssign n) from by with_unfolding_all rfl,
      repReadAssign_length n]
    omega

set_option maxHeartbeats 1000000 in
theorem repReadAssign_emit (ctx : Ctx) (pub susp : Bool)
    (recv : Option String) (jts : List (Nat × Nat)) :
    ∀ (n w : Nat),
      (w + n ≤ maxTemp + 1 →
        ∃ s, writeStmtList ctx (repReadAssign n) 0 ⟨w, w, pub, susp, recv, jts⟩
          = Except.ok (s, ⟨w + n, w + n, pub, susp, recv, jts⟩))
      ∧ (w ≤ maxTemp + 1 → w + n > maxTemp + 1 →
        writeStmtList ctx (repReadAssign n) 0 ⟨w, w, pub, susp, recv, jts⟩
          = Except.error Err.tooManyTemporaries)
  | 0, w => by
    constructor
    · intro h
      exact ⟨"", rfl⟩
    · intro h1 h2
      omega
  | n + 1, w => by
    have hcons : writeStmtList ctx (repReadAssign (n + 1)) 0 ⟨w, w, pub, susp, recv, jts⟩
        = Except.bind (writeStatement ctx readAssign 0 ⟨w, w, pub, susp, recv, jts⟩) (fun p1 =>
          Except.bind (writeStmtList ctx (repReadAssign n) 0 p1.2) (fun p2 =>
          Except.ok (p1.1 ++ p2.1, p2.2))) := by
      with_unfolding_all rfl
    constructor
    · intro h
      obtain ⟨s1, hs1⟩ := (readAssign_step ctx w pub susp recv jts).1 (by omega)
      obtain ⟨s2, hs2⟩ := (repReadAssign_emit ctx pub susp recv jts n (w + 1)).1 (by omega)
      rw [hcons, hs1, except_bind_ok, hs2, except_bind_ok]
      rw [show w + 1 + n = w + (n + 1) from by omega]
      exact ⟨_, rfl⟩
    · intro hw hgt
      by_cases hle : w ≤ maxTemp
      · obtain ⟨s1, hs1⟩ := (readAssign_step ctx w pub susp recv jts).1 hle
        have herr := (repReadAssign_emit ctx pub susp recv jts n (w + 1)).2
          (by omega) (by omega)
        rw [hcons, hs1, except_bind_ok, herr]
        rfl
      · have herr1 := (readAssign_step ctx w pub susp recv jts).2 (by omega)
        rw [hcons, herr1]
        rfl

theorem repVarsList (pkg : String) : ∀ (n d : Nat),
    writeVarsList pkg (repReadAssign n) d = Except.ok ""
  | 0, d => rfl
  | n + 1, d => by
    have hc : writeVarsList pkg (repReadAssign (n + 1)) d
        = Except.bind (Except.ok "")
          (fun s1 => Except.bind (writeVarsList pkg (repReadAssign n) d)
            (fun s2 => Except.ok (s1 ++ s2))) := by with_unfolding_all rfl
    rw [hc, except_bind_ok, repVarsList pkg n d, except_bind_ok]
    rfl

theorem writeFuncImplCore_stmts_err (ctx : Ctx) (f : FuncD) (sig vars : String) (e : Err)
    (hsig : writeFuncSignature ctx.pkg f = Except.ok sig)
    (hvars : writeVars ctx.pkg f.body 0 = Except.ok vars)
    (hstmts : writeStmtList ctx f.body 0 (initPF f) = Except.error e) :
    writeFuncImplCore ctx f = Except.error e := by
  simp [writeFuncImplCore, hsig, hvars, hstmts, bind, Except.bind]

theorem writeFuncImpl_core_err (ctx : Ctx) (f : FuncD) (e : Err)
    (h : writeFuncImplCore ctx f = Except.error e) :
    writeFuncImpl ctx f = Except.error e := by
  simp [writeFuncImpl, h, bind, Except.bind]

/-- A private function whose body is `n` copies of
`x = in.src.read_u8?()`. -/
def repFunc (n : Nat) : FuncD :=
  { receiver := none, name := "decode", inputs := [], body := repReadAssign n,
    public := false, suspendible := false }

theorem repFunc_emit (n : Nat) :
    (n ≤ maxTemp + 1 → ∃ s, writeFuncImpl cfFoo (repFunc n) = Except.ok s)
    ∧ (n > maxTemp + 1 →
        writeFuncImpl cfFoo (repFunc n) = Except.error Err.tooManyTemporaries) := by
  have hsig : writeFuncSignature cfFoo.pkg (repFunc n)
      = Except.ok "void puffs_foo_decode()" := by with_unfolding_all rfl
  have hvars : writeVars cfFoo.pkg (repFunc n).body 0 = Except.ok "" := by
    rw [writeVars, if_neg (by decide)]
    exact repVarsList cfFoo.pkg n 1
  constructor
  · intro h
    obtain ⟨s, hs⟩ := (repReadAssign_emit cfFoo false false none [] n 0).1 (by omega)
    have hst : writeStmtList cfFoo (repFunc n).body 0 (initPF (repFunc n))
        = Except.ok (s, ⟨0 + n, 0 + n, false, false, none, []⟩) := hs
    have hcore := writeFuncImplCore_eq cfFoo (repFunc n) _ _ _ _ hsig hvars hst
    have himpl := writeFuncImpl_eq_of_core cfFoo (repFunc n) _ _ hcore
    rw [himpl, if_neg (by simp)]
    exact ⟨_, rfl⟩
  · intro h
    have herr := (repReadAssign_emit cfFoo false false none [] n 0).2 (by omega) (by omega)
    have hst : writeStmtList cfFoo (repFunc n).body 0 (initPF (repFunc n))
        = Except.error Err.tooManyTemporaries := herr
    exact writeFuncImpl_core_err cfFoo (repFunc n) _
      (writeFuncImplCore_stmts_err cfFoo (repFunc n) _ _ _ hsig hvars hst)

/-- C7 (amended): the temporary budget constant is `maxTemp = 10000`,
but the per-function boundary sits one higher than the spec says: the
guard `tempW > maxTemp` is checked before the counter is incremented,
so a function with up to `maxTemp + 1 = 10001` suspendible calls emits
successfully (using temporaries `t_0` through `t_10000`), and emission
fails with `tooManyTemporaries` exactly when the function holds more
than `maxTemp + 1` such calls.  At the guard site itself, hoisting a
`read_u8` call with `tempW > maxTemp` is the `tooManyTemporaries`
error. -/
theorem temporary_budget :
    maxTemp = 10000
    ∧ (∀ n : Nat, n ≤ maxTemp + 1 →
        ∃ s, writeFuncImpl cfFoo (repFunc n) = Except.ok s)
    ∧ (∀ n : Nat, n > maxTemp + 1 →
        writeFuncImpl cfFoo (repFunc n) = Except.error Err.tooManyTemporaries)
    ∧ (∀ (ctx : Ctx) (d : Nat) (pf : PF), pf.tempW > maxTemp →
        writeCallSuspendibles ctx readCall d pf
          = Except.error Err.tooManyTemporaries) := by
  refine ⟨rfl, ?_, ?_, ?_⟩
  · intro n h
    exact (repFunc_emit n).1 h
  · intro n h
    exact (repFunc_emit n).2 h
  · intro ctx d pf h
    rw [wcs_read_ok, if_pos h]

/-- Witness for C7 at the boundary: 10,001 calls succeed, 10,002 fail,
and the guard site errors at `tempW = 10001`. -/
theorem temporary_budget_witness :
    (∃ s, writeFuncImpl cfFoo (repFunc (maxTemp + 1)) = Except.ok s)
    ∧ writeFuncImpl cfFoo (repFunc (maxTemp + 2)) = Except.error Err.tooManyTemporaries
    ∧ writeCallSuspendibles cfFoo readCall 1
        ⟨maxTemp + 1, maxTemp + 1, false, false, none, []⟩
        = Except.error Err.tooManyTemporaries :=
  ⟨temporary_budget.2.1 (maxTemp + 1) (by decide),
   temporary_budget.2.2.1 (maxTemp + 2) (by decide),
   temporary_budget.2.2.2 cfFoo 1 ⟨maxTemp + 1, maxTemp + 1, false, false, none, []⟩
     (by decide)⟩

/-- Counterexample to C7 as stated: a function with 10,001 distinct
suspendible calls — more than 10,000 — emits successfully, allocating
10,001 temporaries; failure begins only at 10,002 calls. -/
theorem ten_thousand_one_suspendible_calls_succeed :
    StmtList.length (repFunc 10001).body = 10001
    ∧ (10001 : Nat) > maxTemp
    ∧ (writeFuncImpl cfFoo (repFunc 10001)).isOk = true := by
  refine ⟨repReadAssign_length 10001, by decide, ?_⟩
  obtain ⟨s, hs⟩ := (repFunc_emit 10001).1 (by decide)
  rw [hs]
  rfl

end PuffsC
